import Mathlib

/-!
# Nexus API: authentication router and `QuantumAuth` core

Shallow embedding of `backend/src/core/auth.js` (class `QuantumAuth`) and of the
handlers of `backend/src/api/v1/auth.routes.js`.

Conventions of the embedding.

* Tables are lists of rows; a `SELECT` is a `List.filter` and `rows[0]` is the head of the
  result; an `UPDATE ... WHERE id = $1` maps over the table.
* Timestamps are milliseconds since the epoch (`Nat`); one clock value `now` is read per
  request (it stands for `new Date()`, `Date.now()` and SQL `NOW()`).
* A request field that JavaScript may find `undefined` is an `Option`; JavaScript truthiness
  of such a field is `truthy` (absent and the empty string are falsy).
* Library calls (`argon2.verify`, `argon2.hash`, `jwt.sign`, `jwt.verify`,
  `speakeasy.totp.verify`, `crypto.randomBytes`, `uuidv4`, `new URL`) and the values the
  database generates (a new id, an affiliate code) are fields of `Env`, the environment of
  one request. What is assumed of `jsonwebtoken` is stated once, in `JwtContract`, and a
  symbolic implementation (`jwtEnv`) is shown to meet it.
* An error thrown inside a handler is answered by its `catch` block (`catchResponse`).
* A handler returns its HTTP response together with the new database and the value it
  minted (token pair or authorization code), if any.
-/

namespace Nexus

/-! ## Data model -/

/-- A decimal literal `mantissa × 10^(-scale)`, such as the commission rate `0.10`. -/
structure Decimal where
  mantissa : Int
  scale : Nat
  deriving DecidableEq, Repr

/-- JSON value of column `contacts`: the `whatsapp` and `telegram` entries. -/
structure Contacts where
  whatsappNumber : Option String
  whatsappVerified : Bool
  telegramUsername : Option String
  telegramVerified : Bool
  deriving DecidableEq, Repr

/-- Row of table `users`, with the columns the authentication router reads or writes. -/
structure User where
  id : Nat
  username : String
  email : String
  password_hash : String
  role : String
  affiliate_code : String
  is_active : Bool
  is_verified : Bool
  two_factor_secret : Option String
  login_attempts : Nat
  locked_until : Option Nat
  last_login_at : Option Nat
  credit_balance : Int
  contacts : Option Contacts := none
  country : Option String := none
  city : Option String := none
  deriving DecidableEq, Repr

/-- Row of table `sessions`. -/
structure Session where
  user_id : Nat
  access_token : String
  refresh_token : String
  expires_at : Nat
  ip_address : Option String
  user_agent : Option String
  deriving DecidableEq, Repr

/-- Row of table `audit_logs`. -/
structure AuditLog where
  action : String
  entity_type : String
  entity_id : Nat
  user_id : Nat
  ip_address : Option String
  user_agent : Option String
  deriving DecidableEq, Repr

/-- Row of table `applications` (the registered OAuth2 clients). -/
structure Application where
  client_id : String
  client_secret : String
  redirect_uris : List String
  scopes : List String
  is_active : Bool
  deriving DecidableEq, Repr

/-- Row of table `affiliate_network`. -/
structure AffiliateLink where
  user_id : Nat
  referrer_id : Nat
  level : Nat
  commission_rate : Decimal
  deriving DecidableEq, Repr

/-- Row of table `commissions`, with the columns read by `GET /me`. -/
structure Commission where
  affiliate_id : Nat
  amount : Int
  status : String
  deriving DecidableEq, Repr

/-- The tables reached through `db.query` by the router. -/
structure Db where
  users : List User
  sessions : List Session
  audit_logs : List AuditLog
  applications : List Application
  affiliate_network : List AffiliateLink := []
  commissions : List Commission := []
  deriving DecidableEq, Repr

/-- Claim set of a token: the `payload` object of `generateToken`. -/
structure Payload where
  uid : Nat
  username : String
  email : String
  role : String
  affiliate : String
  iat : Nat
  jti : String
  deriving DecidableEq, Repr

/-- Options object passed to `jwt.sign`. -/
structure SignOptions where
  expiresIn : String
  algorithm : String
  issuer : String
  audience : String
  deriving DecidableEq, Repr

/-- Options object passed to `jwt.verify`. -/
structure VerifyOptions where
  algorithms : List String
  issuer : String
  audience : String
  deriving DecidableEq, Repr

/-- Object returned by `generateTokenPair`. -/
structure TokenPair where
  accessToken : String
  refreshToken : String
  expiresIn : Nat
  tokenType : String
  deriving DecidableEq, Repr

/-- Object returned by `generateAuthorizationCode`. -/
structure AuthorizationCode where
  code : String
  clientId : Option String
  userId : Nat
  scopes : List String
  expiresAt : Nat
  deriving DecidableEq, Repr

/-- Instance state of class `QuantumAuth`, as set by its constructor. -/
structure QuantumAuth where
  algorithm : String
  jwtSecret : String
  refreshSecret : String
  deriving DecidableEq, Repr

/-- Options object of an `argon2.hash` call; an option that is left out is `none`. The salt
is represented by its length in bytes. -/
structure Argon2Options where
  type : Option String
  memoryCost : Option Nat
  timeCost : Option Nat
  parallelism : Option Nat
  hashLength : Option Nat
  saltLength : Option Nat
  deriving DecidableEq, Repr

/-- Environment of one request: the clock, the results of the library calls and the values
generated by the database. -/
structure Env where
  /-- Clock value, in milliseconds. -/
  now : Nat
  /-- Result of `argon2.verify(hash, password)`; `error` when it throws. -/
  argon2Verify : String → Option String → Except String Bool
  /-- Result of `speakeasy.totp.verify` for a secret and a submitted code. -/
  totpVerify : Option String → String → Bool
  /-- Result of `jwt.sign(payload, secret, options)`. -/
  jwtSign : Payload → String → SignOptions → String
  /-- Result of `jwt.verify(token, secret, options)`; `error` carries the message thrown. -/
  jwtVerify : Option String → String → VerifyOptions → Except String Payload
  /-- Successive results of `uuidv4()` during the request. -/
  uuidv4 : Nat → String
  /-- Hexadecimal rendering of `crypto.randomBytes(n)`. -/
  randomBytesHex : Nat → String
  /-- Whether `new URL(s)` succeeds. -/
  urlParses : String → Bool
  /-- Result of `argon2.hash(password, options)`. -/
  argon2Hash : String → Argon2Options → String
  /-- Result of `SELECT generate_affiliate_code()`. -/
  generateAffiliateCode : String
  /-- The `id` the database gives to the row inserted into `users`. -/
  newUserId : Nat
  /-- Value of `process.env.APP_URL`. -/
  appUrl : Option String

/-! ## JavaScript helpers -/

/-- JavaScript truthiness of a value that is either `undefined`/`null` or a string. -/
def truthy : Option String → Bool
  | none => false
  | some s => s != ""

/-- Splitting of a character list at every occurrence of `sep`, keeping empty pieces. -/
def splitChars (sep : Char) : List Char → List (List Char)
  | [] => [[]]
  | c :: cs =>
    if c = sep then [] :: splitChars sep cs
    else
      match splitChars sep cs with
      | [] => [[c]]
      | w :: ws => (c :: w) :: ws

/-- JavaScript `s.split(sep)` for a one-character separator. -/
def jsSplit (sep : Char) (s : String) : List String :=
  (splitChars sep s.data).map String.mk

/-- JavaScript `xs.includes(x)` on an array of strings, `x` possibly `undefined`. -/
def includes (xs : List String) : Option String → Bool
  | none => false
  | some x => xs.contains x

/-! ## `QuantumAuth` (core/auth.js) -/

/-- Method `verifyPassword`: the result of `argon2.verify`, and `false` when it throws. -/
def verifyPassword (env : Env) (hash : String) (password : Option String) : Bool :=
  match env.argon2Verify hash password with
  | .ok b => b
  | .error _ => false

/-- The options `hashPassword` passes to `argon2.hash`. -/
def hashPasswordOptions : Argon2Options :=
  { type := some "argon2id", memoryCost := some 65536, timeCost := some 3,
    parallelism := some 4, hashLength := some 32, saltLength := some 16 }

/-- Method `hashPassword`. -/
def hashPassword (env : Env) (password : String) : String :=
  env.argon2Hash password hashPasswordOptions

/-- The options of the dummy `argon2.hash('dummy', { timeCost: 1 })` call in the `catch` block
of `verifyPassword`. -/
def dummyHashOptions : Argon2Options :=
  { type := none, memoryCost := none, timeCost := some 1, parallelism := none,
    hashLength := none, saltLength := none }

/-- Method `verifyPassword` with the `argon2.hash` calls it performs: none when
`argon2.verify` returns, one dummy call when it throws. -/
def verifyPasswordCalls (env : Env) (hash : String) (password : Option String) :
    Bool × List (String × Argon2Options) :=
  match env.argon2Verify hash password with
  | .ok b => (b, [])
  | .error _ => (false, [("dummy", dummyHashOptions)])

/-- The options in force for an `argon2.hash` call: what the call gives, and the default of
the library for what it leaves out. -/
def effectiveOptions (defaults o : Argon2Options) : Argon2Options :=
  { type := o.type <|> defaults.type
    memoryCost := o.memoryCost <|> defaults.memoryCost
    timeCost := o.timeCost <|> defaults.timeCost
    parallelism := o.parallelism <|> defaults.parallelism
    hashLength := o.hashLength <|> defaults.hashLength
    saltLength := o.saltLength <|> defaults.saltLength }

/-- Method `generateToken`; `n` is the index of the `uuidv4()` call within the request. -/
def generateToken (auth : QuantumAuth) (env : Env) (n : Nat) (user : User) (type : String) :
    String :=
  let payload : Payload :=
    { uid := user.id, username := user.username, email := user.email, role := user.role,
      affiliate := user.affiliate_code, iat := env.now / 1000, jti := env.uuidv4 n }
  let secret := if type = "access" then auth.jwtSecret else auth.refreshSecret
  let expiresIn := if type = "access" then "15m" else "7d"
  env.jwtSign payload secret
    { expiresIn := expiresIn, algorithm := "HS512", issuer := "nexus-universe",
      audience := "nexus-clients" }

/-- Method `verifyToken`: the decoded claims, or the error it throws. -/
def verifyToken (auth : QuantumAuth) (env : Env) (token : Option String) (type : String) :
    Except String Payload :=
  let secret := if type = "access" then auth.jwtSecret else auth.refreshSecret
  match env.jwtVerify token secret
      { algorithms := ["HS512"], issuer := "nexus-universe", audience := "nexus-clients" } with
  | .ok decoded => .ok decoded
  | .error message => .error ("Token invalide: " ++ message)

/-- Method `generateTokenPair`. -/
def generateTokenPair (auth : QuantumAuth) (env : Env) (user : User) : TokenPair :=
  { accessToken := generateToken auth env 0 user "access"
    refreshToken := generateToken auth env 1 user "refresh"
    expiresIn := 900
    tokenType := "Bearer" }

/-- Method `verifyTwoFactor`. -/
def verifyTwoFactor (env : Env) (user : User) (token : String) : Bool :=
  env.totpVerify user.two_factor_secret token

/-- Method `validateScopes`. -/
def validateScopes (requestedScopes allowedScopes : List String) : Bool :=
  requestedScopes.all (fun scope => allowedScopes.contains scope)

/-- Method `generateAuthorizationCode`: the object is returned, nothing is stored. -/
def generateAuthorizationCode (env : Env) (clientId : Option String) (userId : Nat)
    (scopes : List String) : AuthorizationCode :=
  { code := env.randomBytesHex 32
    clientId := clientId
    userId := userId
    scopes := scopes
    expiresAt := env.now + 600000 }

/-! ## HTTP responses -/

/-- The `user` object of the login response. -/
structure UserInfo where
  id : Nat
  username : String
  email : String
  role : String
  affiliateCode : String
  isVerified : Bool
  deriving DecidableEq, Repr

/-- Row returned by the `INSERT INTO users ... RETURNING` of the registration handler; the
alias `affiliateCode` comes back as the lower-case column name `affiliatecode`. -/
structure RegisteredUser where
  id : Nat
  username : String
  email : String
  contacts : Contacts
  country : Option String
  city : Option String
  affiliatecode : String
  role : String
  created_at : Nat
  deriving DecidableEq, Repr

/-- JSON bodies sent by the handlers. -/
inductive Body where
  | error (error : String)
  | locked (error : String) (lockedUntil : Nat)
  | requires2FA (methods : List String)
  | login (user : UserInfo) (tokens : TokenPair)
  | token (access_token refresh_token token_type : String) (expires_in : Nat)
      (scope : Option String)
  | validation (errors : List String)
  | registered (message : String) (user : RegisteredUser) (tokens : TokenPair)
      (affiliateCode : String) (affiliateLink : String)
  | profile (user : User) (team_size : Nat) (total_commission : Option Int)
  | updated (message : String)
  deriving DecidableEq, Repr

/-- Targets of `res.redirect`. -/
inductive Redirect where
  | loginPage (originalUrl : String)
  | callback (redirect_uri : String) (code : String) (state : Option String)
  deriving DecidableEq, Repr

/-- Response of a handler: `res.status(s).json(body)` or `res.redirect(target)`. -/
inductive Response where
  | json (status : Nat) (body : Body)
  | redirect (target : Redirect)
  deriving DecidableEq, Repr

/-- HTTP status of a response (`res.redirect` answers 302). -/
def Response.status : Response → Nat
  | .json s _ => s
  | .redirect _ => 302

/-! ## POST /login -/

/-- Body and connection data of a `POST /login` request. -/
structure LoginRequest where
  identifier : Option String
  password : Option String
  twoFactorCode : Option String
  ip : Option String
  userAgent : Option String
  deriving DecidableEq, Repr

/-- What `POST /login` did: the response, the database afterwards, and the result of
`generateTokenPair` when it was called. -/
structure LoginOutcome where
  response : Response
  db : Db
  tokens : Option TokenPair
  deriving DecidableEq, Repr

/-- Rows of `SELECT ... FROM users WHERE email = $1 OR username = $1`. -/
def selectUsersByIdentifier (db : Db) : Option String → List User
  | none => []
  | some identifier => db.users.filter (fun u => u.email == identifier || u.username == identifier)

/-- Statement `UPDATE users SET login_attempts = login_attempts + 1 WHERE id = $1`. -/
def incrementLoginAttempts (db : Db) (id : Nat) : Db :=
  { db with users := db.users.map (fun u =>
      if u.id = id then { u with login_attempts := u.login_attempts + 1 } else u) }

/-- Statement `UPDATE users SET locked_until = NOW() + INTERVAL 30 minutes WHERE id = $1`. -/
def lockUser (db : Db) (now : Nat) (id : Nat) : Db :=
  { db with users := db.users.map (fun u =>
      if u.id = id then { u with locked_until := some (now + 1800000) } else u) }

/-- Statement
`UPDATE users SET login_attempts = 0, locked_until = NULL, last_login_at = NOW() WHERE id = $1`. -/
def resetLoginAttempts (db : Db) (now : Nat) (id : Nat) : Db :=
  { db with users := db.users.map (fun u =>
      if u.id = id then
        { u with login_attempts := 0, locked_until := none, last_login_at := some now }
      else u) }

/-- The part of the login handler that follows a positive password and 2FA check. -/
def loginSuccess (auth : QuantumAuth) (env : Env) (db : Db) (req : LoginRequest)
    (userData : User) : LoginOutcome :=
  let db1 := resetLoginAttempts db env.now userData.id
  let tokens := generateTokenPair auth env userData
  let db2 : Db := { db1 with sessions := db1.sessions ++
    [{ user_id := userData.id, access_token := tokens.accessToken,
       refresh_token := tokens.refreshToken, expires_at := env.now + 900000,
       ip_address := req.ip, user_agent := req.userAgent }] }
  let db3 : Db := { db2 with audit_logs := db2.audit_logs ++
    [{ action := "user.login", entity_type := "user", entity_id := userData.id,
       user_id := userData.id, ip_address := req.ip, user_agent := req.userAgent }] }
  { response := .json 200 (.login
      { id := userData.id, username := userData.username, email := userData.email,
        role := userData.role, affiliateCode := userData.affiliate_code,
        isVerified := userData.is_verified } tokens)
    db := db3
    tokens := some tokens }

/-- Continuation of the login handler after the lock gate: password check, failed-attempt
accounting, then the 2FA step. -/
def loginUnlocked (auth : QuantumAuth) (env : Env) (db : Db) (req : LoginRequest)
    (userData : User) : LoginOutcome :=
  if !verifyPassword env userData.password_hash req.password then
    let db1 := incrementLoginAttempts db userData.id
    if userData.login_attempts + 1 ≥ 5 then
      ⟨.json 423 (.error "Trop de tentatives échouées. Compte verrouillé pour 30 minutes."),
        lockUser db1 env.now userData.id, none⟩
    else ⟨.json 401 (.error "Identifiants incorrects"), db1, none⟩
  else if truthy userData.two_factor_secret then
    if !truthy req.twoFactorCode then ⟨.json 206 (.requires2FA ["totp"]), db, none⟩
    else if !verifyTwoFactor env userData (req.twoFactorCode.getD "") then
      ⟨.json 401 (.error "Code 2FA invalide"), db, none⟩
    else loginSuccess auth env db req userData
  else loginSuccess auth env db req userData

/-- Handler of `POST /login`, as it runs once the `authLimiter` middleware has let the request
through. The declared validators are never consulted by the handler (there is no
`validationResult` call), so they do not appear here. The lock gate is
`userData.locked_until && userData.locked_until > new Date()`. -/
def login (auth : QuantumAuth) (env : Env) (db : Db) (req : LoginRequest) : LoginOutcome :=
  match selectUsersByIdentifier db req.identifier with
  | [] => ⟨.json 401 (.error "Identifiants incorrects"), db, none⟩
  | userData :: _ =>
    match userData.locked_until with
    | some t =>
      if t > env.now then
        ⟨.json 423 (.locked "Compte temporairement verrouillé" t), db, none⟩
      else loginUnlocked auth env db req userData
    | none => loginUnlocked auth env db req userData

/-- The account a login request is about: `user.rows[0]`. -/
def account (db : Db) (identifier : Option String) : Option User :=
  (selectUsersByIdentifier db identifier).head?

/-- Database after a sequence of login requests handled one after the other. -/
def loginRun (auth : QuantumAuth) (db : Db) : List (Env × LoginRequest) → Db
  | [] => db
  | (env, req) :: rest => loginRun auth (login auth env db req).db rest

/-! ## GET /oauth/authorize -/

/-- Query string and headers of a `GET /oauth/authorize` request. -/
structure AuthorizeRequest where
  client_id : Option String
  redirect_uri : Option String
  response_type : Option String
  scope : Option String
  state : Option String
  authorization : Option String
  originalUrl : String
  deriving DecidableEq, Repr

/-- What `GET /oauth/authorize` did: the response and the authorization code minted by
`generateAuthorizationCode` when it was called. The handler writes nothing to the database. -/
structure AuthorizeOutcome where
  response : Response
  authCode : Option AuthorizationCode
  deriving DecidableEq, Repr

/-- Rows of `SELECT * FROM applications WHERE client_id = $1 AND is_active = true`. -/
def selectActiveClient (db : Db) : Option String → List Application
  | none => []
  | some client_id => db.applications.filter (fun a => a.client_id == client_id && a.is_active)

/-- Expression `req.headers.authorization?.split(' ')[1]`. -/
def bearerToken : Option String → Option String
  | none => none
  | some header => (jsSplit ' ' header)[1]?

/-- Expression `scope ? scope.split(' ') : ['openid', 'profile', 'email']`. -/
def requestedScopes (scope : Option String) : List String :=
  if truthy scope then jsSplit ' ' (scope.getD "") else ["openid", "profile", "email"]

/-- Handler of `GET /oauth/authorize`. -/
def oauthAuthorize (auth : QuantumAuth) (env : Env) (db : Db) (req : AuthorizeRequest) :
    AuthorizeOutcome :=
  match selectActiveClient db req.client_id with
  | [] => ⟨.json 400 (.error "Client invalide"), none⟩
  | client :: _ =>
    if !includes client.redirect_uris req.redirect_uri then
      ⟨.json 400 (.error "Redirect URI invalide"), none⟩
    else
      let token := bearerToken req.authorization
      if !truthy token then ⟨.redirect (.loginPage req.originalUrl), none⟩
      else
        match verifyToken auth env token "access" with
        | .error message => ⟨.json 500 (.error message), none⟩
        | .ok decoded =>
          let requested := requestedScopes req.scope
          if !validateScopes requested client.scopes then
            ⟨.json 400 (.error "Scopes invalides"), none⟩
          else
            let authCode := generateAuthorizationCode env req.client_id decoded.uid requested
            if env.urlParses (req.redirect_uri.getD "") then
              ⟨.redirect (.callback (req.redirect_uri.getD "") authCode.code
                  (if truthy req.state then req.state else none)), some authCode⟩
            else ⟨.json 500 (.error "Invalid URL"), some authCode⟩

/-- The client an authorization request is about: `client.rows[0]`. -/
def activeClient (db : Db) (client_id : Option String) : Option Application :=
  (selectActiveClient db client_id).head?

/-! ## POST /oauth/token -/

/-- JSON object sent as body field `code`; the handler reads `userId` and `scopes` only. -/
structure CodeObject where
  code : Option String
  clientId : Option String
  userId : Option Nat
  scopes : Option (List String)
  expiresAt : Option Nat
  deriving DecidableEq, Repr

/-- Body field `code` of a token request: absent, a string, or a JSON object. -/
inductive CodeField where
  | absent
  | str (value : String)
  | obj (value : CodeObject)
  deriving DecidableEq, Repr

/-- Body of a `POST /oauth/token` request. -/
structure TokenRequest where
  grant_type : Option String
  client_id : Option String
  client_secret : Option String
  code : CodeField
  refresh_token : Option String
  deriving DecidableEq, Repr

/-- What `POST /oauth/token` did: the response, if one was sent, and the result of
`generateTokenPair` when it was called. The handler writes nothing to the database. -/
structure TokenOutcome where
  response : Option Response
  tokens : Option TokenPair
  deriving DecidableEq, Repr

/-- Rows of `SELECT * FROM applications WHERE client_id = $1 AND client_secret = $2`. -/
def selectClientByCredentials (db : Db) : Option String → Option String → List Application
  | some client_id, some client_secret =>
    db.applications.filter (fun a => a.client_id == client_id && a.client_secret == client_secret)
  | _, _ => []

/-- Rows of `SELECT * FROM users WHERE id = $1`. -/
def selectUserById (db : Db) : Option Nat → List User
  | none => []
  | some id => db.users.filter (fun u => u.id == id)

/-- Message of the `TypeError` raised by reading property `prop` of `undefined`. -/
def undefinedRead (prop : String) : String :=
  "Cannot read properties of undefined (reading \x27" ++ prop ++ "\x27)"

/-- Branch `grant_type === 'authorization_code'` of the token handler. The presented `code`
is looked up nowhere: only `code.userId` and `code.scopes` are read. -/
def tokenFromCode (auth : QuantumAuth) (env : Env) (db : Db) (code : CodeField) : TokenOutcome :=
  match code with
  | .absent => ⟨some (.json 500 (.error (undefinedRead "userId"))), none⟩
  | .str _ =>
    -- `code.userId` is `undefined`, the query has no row, `generateTokenPair(undefined)` throws
    ⟨some (.json 500 (.error (undefinedRead "id"))), none⟩
  | .obj o =>
    match selectUserById db o.userId with
    | [] => ⟨some (.json 500 (.error (undefinedRead "id"))), none⟩
    | user :: _ =>
      let tokens := generateTokenPair auth env user
      match o.scopes with
      | none => ⟨some (.json 500 (.error (undefinedRead "join"))), some tokens⟩
      | some scopes =>
        ⟨some (.json 200 (.token tokens.accessToken tokens.refreshToken "Bearer" 900
            (some (" ".intercalate scopes)))), some tokens⟩

/-- Branch `grant_type === 'refresh_token'` of the token handler. -/
def tokenFromRefresh (auth : QuantumAuth) (env : Env) (db : Db) (refresh_token : Option String) :
    TokenOutcome :=
  match verifyToken auth env refresh_token "refresh" with
  | .error message => ⟨some (.json 500 (.error message)), none⟩
  | .ok decoded =>
    match selectUserById db (some decoded.uid) with
    | [] => ⟨some (.json 500 (.error (undefinedRead "id"))), none⟩
    | user :: _ =>
      let tokens := generateTokenPair auth env user
      ⟨some (.json 200 (.token tokens.accessToken tokens.refreshToken "Bearer" 900 none)),
        some tokens⟩

/-- Handler of `POST /oauth/token`. The declared validators are never consulted. For a grant
type other than the two handled ones no branch runs and no response is sent. -/
def oauthToken (auth : QuantumAuth) (env : Env) (db : Db) (req : TokenRequest) : TokenOutcome :=
  match selectClientByCredentials db req.client_id req.client_secret with
  | [] => ⟨some (.json 401 (.error "Credentials client invalides")), none⟩
  | _ :: _ =>
    if req.grant_type = some "authorization_code" then tokenFromCode auth env db req.code
    else if req.grant_type = some "refresh_token" then
      tokenFromRefresh auth env db req.refresh_token
    else ⟨none, none⟩

/-- Outcomes of a sequence of token requests handled one after the other; the handler keeps
no state, so every request meets the same database. -/
def oauthTokenRun (auth : QuantumAuth) (db : Db) (reqs : List (Env × TokenRequest)) :
    List TokenOutcome :=
  reqs.map (fun r => oauthToken auth r.1 db r.2)

/-! ## Sample data -/

/-- A `QuantumAuth` instance with two different secrets. -/
def sampleAuth : QuantumAuth :=
  { algorithm := "argon2id", jwtSecret := "k-access", refreshSecret := "k-refresh" }

/-- A toy environment at clock value `now`: the hash of a password is the password itself, the
current one-time code is 123456, a token is its secret followed by the `jti`, and the only
token that verifies is `at-alice`, for account 1. -/
def sampleEnv (now : Nat) : Env :=
  { now := now
    argon2Verify := fun hash password =>
      if hash = "" then .error "pchstr must contain a $ as first char"
      else .ok (password == some hash)
    totpVerify := fun _ code => code == "123456"
    jwtSign := fun payload secret _ => secret ++ "." ++ payload.jti
    jwtVerify := fun token _ _ =>
      if token = some "at-alice" then
        .ok { uid := 1, username := "alice", email := "alice@nexus.io", role := "user",
              affiliate := "AFF-ALICE", iat := 0, jti := "uuid-0" }
      else .error "jwt malformed"
    uuidv4 := fun n => if n = 0 then "uuid-0" else "uuid-1"
    randomBytesHex := fun _ => "c0de"
    urlParses := fun s => s != ""
    argon2Hash := fun password _ => password
    generateAffiliateCode := "AFF-NEW"
    newUserId := 3
    appUrl := some "https://nexus.io" }

/-- Account `alice`: no second factor, never failed, not locked. -/
def alice : User :=
  { id := 1, username := "alice", email := "alice@nexus.io", password_hash := "s3cret",
    role := "user", affiliate_code := "AFF-ALICE", is_active := true, is_verified := true,
    two_factor_secret := none, login_attempts := 0, locked_until := none,
    last_login_at := none, credit_balance := 0 }

/-- Account `bob`: enrolled in two-factor authentication. -/
def bob : User :=
  { id := 2, username := "bob", email := "bob@nexus.io", password_hash := "hunter2",
    role := "user", affiliate_code := "AFF-BOB", is_active := true, is_verified := true,
    two_factor_secret := some "JBSWY3DPEHPK3PXP", login_attempts := 0, locked_until := none,
    last_login_at := none, credit_balance := 0 }

/-- A registered, active OAuth2 client. -/
def shop : Application :=
  { client_id := "shop", client_secret := "shop-secret",
    redirect_uris := ["https://shop.example/cb"], scopes := ["openid", "profile", "email"],
    is_active := true }

/-- A database with the two accounts and the client. -/
def sampleDb : Db :=
  { users := [alice, bob], sessions := [], audit_logs := [], applications := [shop] }

/-- A login request for an identifier with a password and an optional one-time code. -/
def loginReq (identifier password : String) (code : Option String) : LoginRequest :=
  { identifier := some identifier, password := some password, twoFactorCode := code,
    ip := some "10.0.0.1", userAgent := some "curl" }

/-- Five login requests for `alice` with a wrong password, at clock values 1000 to 5000. -/
def fiveWrong : List (Env × LoginRequest) :=
  [(sampleEnv 1000, loginReq "alice" "wrong" none),
   (sampleEnv 2000, loginReq "alice" "wrong" none),
   (sampleEnv 3000, loginReq "alice" "wrong" none),
   (sampleEnv 4000, loginReq "alice" "wrong" none),
   (sampleEnv 5000, loginReq "alice" "wrong" none)]

/-- An account that shares the id of `alice` and has four failed attempts; such a row cannot
exist when `id` is a key of table `users`. -/
def aliceTwin : User :=
  { alice with username := "twin", email := "twin@nexus.io", login_attempts := 4 }

/-- An authorization request of client `shop`, with `alice` logged in. -/
def authorizeReq (redirect_uri : String) (scope : Option String) : AuthorizeRequest :=
  { client_id := some "shop", redirect_uri := some redirect_uri, response_type := some "code",
    scope := scope, state := some "xyz", authorization := some "Bearer at-alice",
    originalUrl := "/oauth/authorize" }

/-- A token request of client `shop` whose `code` field is an object naming account 1. -/
def redeemReq : TokenRequest :=
  { grant_type := some "authorization_code", client_id := some "shop",
    client_secret := some "shop-secret",
    code := .obj { code := some "c0de", clientId := some "shop", userId := some 1,
                   scopes := some ["openid"], expiresAt := some 601000 },
    refresh_token := none }

/-- A token request of client `shop` with the given grant type and nothing else. -/
def grantReq (grant_type : String) : TokenRequest :=
  { grant_type := some grant_type, client_id := some "shop", client_secret := some "shop-secret",
    code := .absent, refresh_token := none }

/-! ## The constructor of `QuantumAuth` and a model of `jsonwebtoken` -/

/-- Constructor of `QuantumAuth`: each secret is its environment variable when that is set to
a non-empty string (`process.env.X || this.generateQuantumKey()`), and otherwise a freshly
generated key; `key1` and `key2` are the two results of `generateQuantumKey`. -/
def constructQuantumAuth (JWT_SECRET JWT_REFRESH_SECRET : Option String) (key1 key2 : String) :
    QuantumAuth :=
  { algorithm := "argon2id"
    jwtSecret := if truthy JWT_SECRET then JWT_SECRET.getD "" else key1
    refreshSecret := if truthy JWT_REFRESH_SECRET then JWT_REFRESH_SECRET.getD "" else key2 }

/-- Lifetime in seconds denoted by an `expiresIn` string, for the two strings
`generateToken` passes to `jwt.sign`. -/
def lifetimeSeconds (expiresIn : String) : Nat :=
  if expiresIn = "15m" then 900 else if expiresIn = "7d" then 604800 else 0

/-- What `jwt.sign` and `jwt.verify` are assumed to do in an environment: a signed token
verifies under the signing key when algorithm, issuer and audience agree and the token has not
expired, giving back the signed claims; it never verifies under another key; and a token
determines its claims and its lifetime. -/
structure JwtContract (env : Env) : Prop where
  verify_signed : ∀ (p : Payload) (k : String) (o : SignOptions) (v : VerifyOptions),
    o.algorithm ∈ v.algorithms → o.issuer = v.issuer → o.audience = v.audience →
    env.now / 1000 < p.iat + lifetimeSeconds o.expiresIn →
    env.jwtVerify (some (env.jwtSign p k o)) k v = .ok p
  verify_other_key : ∀ (p : Payload) (k k2 : String) (o : SignOptions) (v : VerifyOptions),
    k ≠ k2 → ∃ message, env.jwtVerify (some (env.jwtSign p k o)) k2 v = .error message
  sign_injective : ∀ (p p2 : Payload) (k k2 : String) (o o2 : SignOptions),
    env.jwtSign p k o = env.jwtSign p2 k2 o2 →
    p = p2 ∧ lifetimeSeconds o.expiresIn = lifetimeSeconds o2.expiresIn

/-- Length-prefixed rendering of one string: as many `1` as it has characters, a `0`, then the
string. -/
def frame (s : String) : List Char :=
  List.replicate s.length '1' ++ '0' :: s.data

/-- Inverse of `frame` at the head of a character list. -/
def readFrame (cs : List Char) : Option (String × List Char) :=
  let n := (cs.takeWhile (fun c => c == '1')).length
  match cs.drop n with
  | [] => none
  | c :: rest =>
    if c = '0' ∧ n ≤ rest.length then some (String.mk (rest.take n), rest.drop n) else none

/-- Reading of `n` successive frames. -/
def readFrames : Nat → List Char → Option (List String × List Char)
  | 0, cs => some ([], cs)
  | n + 1, cs =>
    match readFrame cs with
    | none => none
    | some (s, rest) =>
      match readFrames n rest with
      | none => none
      | some (ss, rest2) => some (s :: ss, rest2)

/-- Unary rendering of a number. -/
def unary (n : Nat) : String := String.mk (List.replicate n '1')

/-- A symbolic `jwt.sign`: the token spells out the claims, the options and the key. -/
def jwtSignModel (p : Payload) (k : String) (o : SignOptions) : String :=
  String.mk (([unary p.uid, p.username, p.email, p.role, p.affiliate, unary p.iat, p.jti,
    o.expiresIn, o.algorithm, o.issuer, o.audience, k] : List String).flatMap frame)

/-- Parsing of a token of `jwtSignModel`. -/
def jwtDecodeModel (token : String) : Option (Payload × SignOptions × String) :=
  match readFrames 12 token.data with
  | some ([uid, username, email, role, affiliate, iat, jti, expiresIn, algorithm, issuer,
      audience, k], []) =>
    some ({ uid := uid.length, username := username, email := email, role := role,
            affiliate := affiliate, iat := iat.length, jti := jti },
          { expiresIn := expiresIn, algorithm := algorithm, issuer := issuer,
            audience := audience }, k)
  | _ => none

/-- A symbolic `jwt.verify` at clock value `now`, with the checks in the order of the library:
algorithm, signature (here: the key), expiry, audience, issuer. -/
def jwtVerifyModel (now : Nat) (token : Option String) (secret : String) (v : VerifyOptions) :
    Except String Payload :=
  match token with
  | none => .error "jwt must be provided"
  | some t =>
    match jwtDecodeModel t with
    | none => .error "jwt malformed"
    | some (p, o, k) =>
      if !v.algorithms.contains o.algorithm then .error "invalid algorithm"
      else if k != secret then .error "invalid signature"
      else if p.iat + lifetimeSeconds o.expiresIn ≤ now / 1000 then .error "jwt expired"
      else if o.audience != v.audience then .error "jwt audience invalid"
      else if o.issuer != v.issuer then .error "jwt issuer invalid"
      else .ok p

/-- The sample environment with the symbolic `jsonwebtoken`. -/
def jwtEnv (now : Nat) : Env :=
  { sampleEnv now with jwtSign := jwtSignModel, jwtVerify := jwtVerifyModel now }

/-- An instance built with both environment variables set to the same value. -/
def sameSecretAuth : QuantumAuth :=
  constructQuantumAuth (some "topsecret") (some "topsecret") "key-1" "key-2"

/-! ## POST /register -/

/-- Body and connection data of a `POST /register` request, as the handler finds it once the
validator middlewares have run; `errors` is what `validationResult(req).array()` returns. -/
structure RegisterRequest where
  username : Option String
  email : Option String
  password : Option String
  whatsapp : Option String
  telegram : Option String
  country : Option String
  city : Option String
  inviteCode : Option String
  errors : List String
  ip : Option String
  userAgent : Option String
  deriving DecidableEq, Repr

/-- What `POST /register` did: the response, the database afterwards, and the result of
`generateTokenPair` when it was called. -/
structure RegisterOutcome where
  response : Response
  db : Db
  tokens : Option TokenPair
  deriving DecidableEq, Repr

/-- Rows of `SELECT id FROM users WHERE email = $1 OR username = $2`. -/
def selectUsersByEmailOrUsername (db : Db) (email username : Option String) : List User :=
  db.users.filter (fun u => some u.email == email || some u.username == username)

/-- Rows of `SELECT id FROM users WHERE affiliate_code = $1`. -/
def selectUsersByAffiliateCode (db : Db) (code : String) : List User :=
  db.users.filter (fun u => u.affiliate_code == code)

/-- The row created by the `INSERT INTO users` of the registration handler. The columns the
statement does not list take their defaults, taken here to be those of a fresh account:
active, not verified, no second factor, no failed attempt, no lock, balance 0. -/
def newUserRow (env : Env) (req : RegisterRequest) (username email passwordHash : String) : User :=
  { id := env.newUserId, username := username, email := email, password_hash := passwordHash,
    role := "user", affiliate_code := env.generateAffiliateCode, is_active := true,
    is_verified := false, two_factor_secret := none, login_attempts := 0, locked_until := none,
    last_login_at := none, credit_balance := 0,
    contacts := some
      { whatsappNumber := if truthy req.whatsapp then req.whatsapp else none,
        whatsappVerified := false,
        telegramUsername := if truthy req.telegram then req.telegram else none,
        telegramVerified := false },
    country := req.country, city := req.city }

/-- Statement `INSERT INTO affiliate_network (user_id, referrer_id, level, commission_rate)
VALUES ($1, $2, 1, 0.10)`. -/
def insertAffiliateLink (db : Db) (user_id referrer_id : Nat) : Db :=
  { db with affiliate_network := db.affiliate_network ++
      [{ user_id := user_id, referrer_id := referrer_id, level := 1,
         commission_rate := { mantissa := 10, scale := 2 } }] }

/-- Statement `UPDATE users SET credit_balance = credit_balance + 10 WHERE id = $1`. -/
def creditReferrer (db : Db) (id : Nat) : Db :=
  { db with users := db.users.map (fun u =>
      if u.id = id then { u with credit_balance := u.credit_balance + 10 } else u) }

/-- The block `if (inviteCode) ...` of the registration handler, run after the new row has
been inserted. -/
def handleInvite (db : Db) (inviteCode : Option String) (newId : Nat) : Db :=
  if truthy inviteCode then
    match selectUsersByAffiliateCode db (inviteCode.getD "") with
    | [] => db
    | referrer :: _ => creditReferrer (insertAffiliateLink db newId referrer.id) referrer.id
  else db

/-- The registration handler after validation and the duplicate check. The row returned by
the `INSERT` has no property `affiliate_code` (the column comes back as `affiliatecode`), so
the `affiliate` claim of the tokens is `undefined`, rendered here as the empty string. -/
def registerAccount (auth : QuantumAuth) (env : Env) (db : Db) (req : RegisterRequest)
    (username email password : String) : RegisterOutcome :=
  let user := newUserRow env req username email (hashPassword env password)
  let db1 : Db := { db with users := db.users ++ [user] }
  let db2 := handleInvite db1 req.inviteCode user.id
  let tokens := generateTokenPair auth env { user with affiliate_code := "" }
  let db3 : Db := { db2 with sessions := db2.sessions ++
    [{ user_id := user.id, access_token := tokens.accessToken,
       refresh_token := tokens.refreshToken, expires_at := env.now + 900000,
       ip_address := req.ip, user_agent := req.userAgent }] }
  let db4 : Db := { db3 with audit_logs := db3.audit_logs ++
    [{ action := "user.register", entity_type := "user", entity_id := user.id,
       user_id := user.id, ip_address := req.ip, user_agent := req.userAgent }] }
  { response := .json 201 (.registered "Compte créé avec succès"
      { id := user.id, username := user.username, email := user.email,
        contacts := user.contacts.getD ⟨none, false, none, false⟩, country := user.country,
        city := user.city, affiliatecode := user.affiliate_code, role := user.role,
        created_at := env.now }
      tokens user.affiliate_code
      ((env.appUrl.getD "undefined") ++ "/register?ref=" ++ user.affiliate_code))
    db := db4
    tokens := some tokens }

/-- Handler of `POST /register`. A body that passed validation has its `username`, `email`
and `password`; without them the `INSERT` or `argon2.hash` throws and the `catch` block
answers. -/
def register (auth : QuantumAuth) (env : Env) (db : Db) (req : RegisterRequest) :
    RegisterOutcome :=
  if !req.errors.isEmpty then ⟨.json 400 (.validation req.errors), db, none⟩
  else if (selectUsersByEmailOrUsername db req.email req.username).length > 0 then
    ⟨.json 409 (.error "Un utilisateur avec cet email ou nom d\x27utilisateur existe déjà"),
      db, none⟩
  else
    match req.username, req.email, req.password with
    | some username, some email, some password =>
      registerAccount auth env db req username email password
    | _, _, _ => ⟨.json 500 (.error "Erreur serveur"), db, none⟩

/-! ## GET /me and PUT /me -/

/-- Sub-query `SELECT COUNT(*) FROM affiliate_network WHERE referrer_id = u.id`. -/
def teamSize (db : Db) (id : Nat) : Nat :=
  (db.affiliate_network.filter (fun l => l.referrer_id == id)).length

/-- Sub-query `SELECT SUM(amount) FROM commissions WHERE affiliate_id = u.id AND
status = 'paid'`; the sum of no row is `NULL`. -/
def totalCommission (db : Db) (id : Nat) : Option Int :=
  match db.commissions.filter (fun c => c.affiliate_id == id && c.status == "paid") with
  | [] => none
  | rows => some (rows.map (fun c => c.amount)).sum

/-- Handler of `GET /me`, given the `Authorization` header. It writes nothing. -/
def getMe (auth : QuantumAuth) (env : Env) (db : Db) (authorization : Option String) :
    Response :=
  let token := bearerToken authorization
  if !truthy token then .json 401 (.error "Token manquant")
  else
    match verifyToken auth env token "access" with
    | .error message => .json 401 (.error message)
    | .ok decoded =>
      match selectUserById db (some decoded.uid) with
      | [] => .json 404 (.error "Utilisateur non trouvé")
      | user :: _ =>
        .json 200 (.profile user (teamSize db user.id) (totalCommission db user.id))

/-- Body and headers of a `PUT /me` request. -/
structure UpdateProfileRequest where
  whatsapp : Option String
  telegram : Option String
  country : Option String
  city : Option String
  authorization : Option String
  deriving DecidableEq, Repr

/-- What `PUT /me` did: the response and the database afterwards. -/
structure UpdateProfileOutcome where
  response : Response
  db : Db
  deriving DecidableEq, Repr

/-- Handler of `PUT /me`. The token is not tested for presence: `verifyToken(undefined)`
throws like any rejected token, and the `catch` block answers 500 with the message. The
declared validators are never consulted. -/
def putMe (auth : QuantumAuth) (env : Env) (db : Db) (req : UpdateProfileRequest) :
    UpdateProfileOutcome :=
  match verifyToken auth env (bearerToken req.authorization) "access" with
  | .error message => ⟨.json 500 (.error message), db⟩
  | .ok decoded =>
    match selectUserById db (some decoded.uid) with
    | [] => ⟨.json 500 (.error (undefinedRead "contacts")), db⟩
    | currentUser :: _ =>
      let updatedContacts : Contacts :=
        { whatsappNumber :=
            if truthy req.whatsapp then req.whatsapp
            else currentUser.contacts.bind (fun c => c.whatsappNumber)
          whatsappVerified := false
          telegramUsername :=
            if truthy req.telegram then req.telegram
            else currentUser.contacts.bind (fun c => c.telegramUsername)
          telegramVerified := false }
      ⟨.json 200 (.updated "Profil mis à jour avec succès"),
        { db with users := db.users.map (fun u =>
            if u.id = decoded.uid then
              { u with contacts := some updatedContacts, country := req.country <|> u.country,
                       city := req.city <|> u.city }
            else u) }⟩

/-! ## Validators and `catch` blocks -/

/-- Validator `notEmpty()` of express-validator on a body field. -/
def notEmpty (value : Option String) : Bool :=
  value.getD "" != ""

/-- The validators declared for `POST /login`: `body('identifier').notEmpty()` and
`body('password').notEmpty()`; `true` when the request passes both. -/
def loginValidators (req : LoginRequest) : Bool :=
  notEmpty req.identifier && notEmpty req.password

/-- The handlers of the router. -/
inductive Route where
  | register
  | login
  | oauthAuthorize
  | oauthToken
  | getMe
  | putMe
  deriving DecidableEq, Repr

/-- The `catch` block of each handler: the response to an error with message `message`
thrown while the handler runs. -/
def catchResponse : Route → String → Response
  | .register, _ => .json 500 (.error "Erreur serveur")
  | .login, _ => .json 500 (.error "Erreur serveur")
  | .oauthAuthorize, message => .json 500 (.error message)
  | .oauthToken, message => .json 500 (.error message)
  | .getMe, message => .json 401 (.error message)
  | .putMe, message => .json 500 (.error message)

/-! ## Sample data for registration, profile and token verification -/

/-- The access token the sample instance issues for `alice` at clock value 1000, under the
symbolic `jsonwebtoken`. -/
def aliceAccessToken : String :=
  (generateTokenPair sampleAuth (jwtEnv 1000) alice).accessToken

/-- An authorization request of client `shop` carrying `aliceAccessToken`. -/
def authorizeWithToken : AuthorizeRequest :=
  { client_id := some "shop", redirect_uri := some "https://shop.example/cb",
    response_type := some "code", scope := some "openid", state := none,
    authorization := some ("Bearer " ++ aliceAccessToken), originalUrl := "/oauth/authorize" }

/-- An instance of a process started without the two environment variables: both secrets are
generated keys. -/
def restartedAuth : QuantumAuth :=
  constructQuantumAuth none none "key-1" "key-2"

/-- A profile update with a new city and the given `Authorization` header. -/
def updateReq (authorization : Option String) : UpdateProfileRequest :=
  { whatsapp := none, telegram := none, country := none, city := some "Dakar",
    authorization := authorization }

/-- A valid registration of `carol`, with the given invitation code. -/
def registerReq (inviteCode : Option String) : RegisterRequest :=
  { username := some "carol", email := some "carol@nexus.io", password := some "Passw0rd!",
    whatsapp := none, telegram := some "carol_tg", country := some "SN", city := none,
    inviteCode := inviteCode, errors := [], ip := some "10.0.0.1", userAgent := some "curl" }

/-- The row inserted for `carol` in the sample environment. -/
def carol : User :=
  { id := 3, username := "carol", email := "carol@nexus.io", password_hash := "Passw0rd!",
    role := "user", affiliate_code := "AFF-NEW", is_active := true, is_verified := false,
    two_factor_secret := none, login_attempts := 0, locked_until := none,
    last_login_at := none, credit_balance := 0,
    contacts := some { whatsappNumber := none, whatsappVerified := false,
                       telegramUsername := some "carol_tg", telegramVerified := false },
    country := some "SN", city := none }

/-! ## Auxiliary facts about the login handler -/

theorem loginSuccess_response (auth : QuantumAuth) (env : Env) (db : Db) (req : LoginRequest)
    (u : User) :
    (loginSuccess auth env db req u).response =
      .json 200 (.login
        { id := u.id, username := u.username, email := u.email, role := u.role,
          affiliateCode := u.affiliate_code, isVerified := u.is_verified }
        (generateTokenPair auth env u)) := rfl

theorem loginSuccess_tokens (auth : QuantumAuth) (env : Env) (db : Db) (req : LoginRequest)
    (u : User) :
    (loginSuccess auth env db req u).tokens = some (generateTokenPair auth env u) := rfl

theorem loginSuccess_sessions (auth : QuantumAuth) (env : Env) (db : Db) (req : LoginRequest)
    (u : User) :
    (loginSuccess auth env db req u).db.sessions = db.sessions ++
      [{ user_id := u.id, access_token := (generateTokenPair auth env u).accessToken,
         refresh_token := (generateTokenPair auth env u).refreshToken,
         expires_at := env.now + 900000, ip_address := req.ip, user_agent := req.userAgent }] :=
  rfl

theorem loginSuccess_users (auth : QuantumAuth) (env : Env) (db : Db) (req : LoginRequest)
    (u : User) :
    (loginSuccess auth env db req u).db.users = (resetLoginAttempts db env.now u.id).users := rfl

/-- The password-and-2FA part of the handler answers 200 exactly when the password verifies
and the second factor, when enrolled, is supplied and verifies. -/
theorem loginUnlocked_status_iff (auth : QuantumAuth) (env : Env) (db : Db) (req : LoginRequest)
    (u : User) :
    (loginUnlocked auth env db req u).response.status = 200 ↔
      verifyPassword env u.password_hash req.password = true ∧
      (truthy u.two_factor_secret = false ∨
        ∃ c, req.twoFactorCode = some c ∧ c ≠ "" ∧ verifyTwoFactor env u c = true) := by
  unfold loginUnlocked
  cases hp : verifyPassword env u.password_hash req.password
  · by_cases h5 : u.login_attempts + 1 ≥ 5 <;> simp [h5, Response.status]
  · cases hs : truthy u.two_factor_secret
    · simp [loginSuccess_response, Response.status]
    · cases hc : req.twoFactorCode with
      | none => simp [truthy, Response.status]
      | some c =>
        by_cases hce : c = ""
        · simp [truthy, hce, Response.status]
        · cases hv : verifyTwoFactor env u c <;>
            simp [truthy, hce, hv, Response.status, loginSuccess_response]

/-- Whenever the password-and-2FA part answers 200 it went through `loginSuccess`. -/
theorem loginUnlocked_of_status (auth : QuantumAuth) (env : Env) (db : Db) (req : LoginRequest)
    (u : User) (h : (loginUnlocked auth env db req u).response.status = 200) :
    loginUnlocked auth env db req u = loginSuccess auth env db req u := by
  revert h
  unfold loginUnlocked
  cases hp : verifyPassword env u.password_hash req.password
  · by_cases h5 : u.login_attempts + 1 ≥ 5 <;> simp [h5, Response.status]
  · cases hs : truthy u.two_factor_secret
    · simp
    · cases hc : req.twoFactorCode with
      | none => simp [truthy, Response.status]
      | some c =>
        by_cases hce : c = ""
        · simp [truthy, hce, Response.status]
        · cases hv : verifyTwoFactor env u c <;> simp [truthy, hce, hv, Response.status]

/-- Whenever the password-and-2FA part does not answer 200, no token pair is generated and no
session row is written. -/
theorem loginUnlocked_of_not_status (auth : QuantumAuth) (env : Env) (db : Db)
    (req : LoginRequest) (u : User)
    (h : (loginUnlocked auth env db req u).response.status ≠ 200) :
    (loginUnlocked auth env db req u).tokens = none ∧
      (loginUnlocked auth env db req u).db.sessions = db.sessions := by
  revert h
  unfold loginUnlocked
  cases hp : verifyPassword env u.password_hash req.password
  · by_cases h5 : u.login_attempts + 1 ≥ 5 <;>
      simp [h5, lockUser, incrementLoginAttempts]
  · cases hs : truthy u.two_factor_secret
    · simp [loginSuccess_response, Response.status]
    · cases hc : req.twoFactorCode with
      | none => simp [truthy]
      | some c =>
        by_cases hce : c = ""
        · simp [truthy, hce]
        · cases hv : verifyTwoFactor env u c <;>
            simp [truthy, hce, hv, loginSuccess_response, Response.status]

/-- No row matches the identifier: 401, nothing changes. -/
theorem login_no_account (auth : QuantumAuth) (env : Env) (db : Db) (req : LoginRequest)
    (h : account db req.identifier = none) :
    login auth env db req = ⟨.json 401 (.error "Identifiants incorrects"), db, none⟩ := by
  unfold account at h
  unfold login
  cases hsel : selectUsersByIdentifier db req.identifier with
  | nil => rfl
  | cons u rest => simp [hsel] at h

/-- The lock gate fires: 423 with the stored `locked_until`, nothing changes. -/
theorem login_locked (auth : QuantumAuth) (env : Env) (db : Db) (req : LoginRequest)
    (u : User) (t : Nat) (h : account db req.identifier = some u)
    (hl : u.locked_until = some t) (ht : env.now < t) :
    login auth env db req =
      ⟨.json 423 (.locked "Compte temporairement verrouillé" t), db, none⟩ := by
  unfold account at h
  unfold login
  cases hsel : selectUsersByIdentifier db req.identifier with
  | nil => simp [hsel] at h
  | cons v rest =>
    simp only [hsel, List.head?_cons, Option.some.injEq] at h
    subst h
    simp only [hl]
    simp [ht]

/-- The lock gate lets the request through: the handler continues with the password check. -/
theorem login_not_locked (auth : QuantumAuth) (env : Env) (db : Db) (req : LoginRequest)
    (u : User) (h : account db req.identifier = some u)
    (hl : ∀ t, u.locked_until = some t → t ≤ env.now) :
    login auth env db req = loginUnlocked auth env db req u := by
  unfold account at h
  unfold login
  cases hsel : selectUsersByIdentifier db req.identifier with
  | nil => simp [hsel] at h
  | cons v rest =>
    simp only [hsel, List.head?_cons, Option.some.injEq] at h
    subst h
    cases hlu : v.locked_until with
    | none => simp only [hlu]
    | some t =>
      have := hl t hlu
      have ht : ¬ (t > env.now) := by omega
      simp only [hlu]
      simp [ht]

/-! ## C1: when does `POST /login` succeed -/

/-- C1. `POST /login` answers 200 if and only if an account matches the identifier, the
account is not locked (`locked_until` is null or not later than now), `verifyPassword` returns
true for the stored hash, and either the account has no (truthy) `two_factor_secret` or a
(non-empty) `twoFactorCode` was supplied and `verifyTwoFactor` returns true. In that case the
response carries the pair returned by `generateTokenPair` and one session row holding that pair
is appended; in every other case `generateTokenPair` is not called and the session table is
unchanged. -/
theorem C1_login_success_iff (auth : QuantumAuth) (env : Env) (db : Db) (req : LoginRequest) :
    ((login auth env db req).response.status = 200 ↔
      ∃ u, account db req.identifier = some u ∧
        (u.locked_until = none ∨ ∃ t, u.locked_until = some t ∧ t ≤ env.now) ∧
        verifyPassword env u.password_hash req.password = true ∧
        (truthy u.two_factor_secret = false ∨
          ∃ c, req.twoFactorCode = some c ∧ c ≠ "" ∧ verifyTwoFactor env u c = true)) ∧
    ((login auth env db req).response.status = 200 →
      ∃ u, account db req.identifier = some u ∧
        (login auth env db req).tokens = some (generateTokenPair auth env u) ∧
        (login auth env db req).response =
          .json 200 (.login
            { id := u.id, username := u.username, email := u.email, role := u.role,
              affiliateCode := u.affiliate_code, isVerified := u.is_verified }
            (generateTokenPair auth env u)) ∧
        (login auth env db req).db.sessions = db.sessions ++
          [{ user_id := u.id, access_token := (generateTokenPair auth env u).accessToken,
             refresh_token := (generateTokenPair auth env u).refreshToken,
             expires_at := env.now + 900000, ip_address := req.ip,
             user_agent := req.userAgent }]) ∧
    ((login auth env db req).response.status ≠ 200 →
      (login auth env db req).tokens = none ∧
        (login auth env db req).db.sessions = db.sessions) := by
  cases hacc : account db req.identifier with
  | none =>
    rw [login_no_account auth env db req hacc]
    simp [Response.status]
  | some u =>
    cases hl : u.locked_until with
    | some t =>
      by_cases ht : env.now < t
      · have ht2 : ¬ t ≤ env.now := by omega
        rw [login_locked auth env db req u t hacc hl ht]
        simp [Response.status, hl, ht2]
      · have ht2 : t ≤ env.now := by omega
        have hnl : ∀ t, u.locked_until = some t → t ≤ env.now := by
          intro t1 h1
          rw [hl] at h1
          cases h1
          exact ht2
        rw [login_not_locked auth env db req u hacc hnl]
        refine ⟨?_, ?_, ?_⟩
        · simpa [hl, ht2] using loginUnlocked_status_iff auth env db req u
        · intro h
          rw [loginUnlocked_of_status auth env db req u h]
          exact ⟨u, rfl, rfl, rfl, rfl⟩
        · exact loginUnlocked_of_not_status auth env db req u
    | none =>
      have hnl : ∀ t, u.locked_until = some t → t ≤ env.now := by
        intro t1 h1
        rw [hl] at h1
        cases h1
      rw [login_not_locked auth env db req u hacc hnl]
      refine ⟨?_, ?_, ?_⟩
      · simpa [hl] using loginUnlocked_status_iff auth env db req u
      · intro h
        rw [loginUnlocked_of_status auth env db req u h]
        exact ⟨u, rfl, rfl, rfl, rfl⟩
      · exact loginUnlocked_of_not_status auth env db req u


/-- Witness of C1: with the right password `alice` is let in, with a wrong one no token
pair is generated. -/
theorem C1_login_success_iff_witness :
    (login sampleAuth (sampleEnv 1000) sampleDb
        (loginReq "alice" "s3cret" none)).response.status = 200 ∧
      (login sampleAuth (sampleEnv 1000) sampleDb (loginReq "alice" "wrong" none)).tokens = none :=
  ⟨(C1_login_success_iff sampleAuth (sampleEnv 1000) sampleDb
      (loginReq "alice" "s3cret" none)).1.mpr
      ⟨alice, by decide, Or.inl rfl, by decide, Or.inl rfl⟩,
    ((C1_login_success_iff sampleAuth (sampleEnv 1000) sampleDb
      (loginReq "alice" "wrong" none)).2.2 (by decide)).1⟩

/-! ## The users table under the updates of the login handler -/

/-- An update that keeps `email` and `username` commutes with the identifier query. -/
theorem account_map (db : Db) (g : User → User)
    (hg : ∀ r, (g r).email = r.email ∧ (g r).username = r.username) (i : Option String)
    (db2 : Db) (h : db2.users = db.users.map g) :
    account db2 i = (account db i).map g := by
  unfold account selectUsersByIdentifier
  cases i with
  | none => rfl
  | some identifier =>
    simp only [h, List.filter_map, List.head?_map]
    congr 3
    funext r
    simp [Function.comp, (hg r).1, (hg r).2]

theorem account_mem (db : Db) (i : Option String) (u : User) (h : account db i = some u) :
    u ∈ db.users := by
  unfold account selectUsersByIdentifier at h
  cases i with
  | none => simp at h
  | some identifier =>
    have := List.mem_of_mem_head? h
    exact List.mem_of_mem_filter this

/-- A wrong password on an account the lock gate lets through: the counter is incremented,
and the account is locked when the incremented counter reaches 5. -/
theorem login_wrong_password (auth : QuantumAuth) (env : Env) (db : Db) (req : LoginRequest)
    (u : User) (h : account db req.identifier = some u)
    (hl : ∀ t, u.locked_until = some t → t ≤ env.now)
    (hp : verifyPassword env u.password_hash req.password = false) :
    (login auth env db req).response.status = (if u.login_attempts + 1 ≥ 5 then 423 else 401) ∧
    (login auth env db req).tokens = none ∧
    (login auth env db req).db.users = db.users.map (fun r =>
      if r.id = u.id then
        { r with login_attempts := r.login_attempts + 1,
                 locked_until := if u.login_attempts + 1 ≥ 5 then some (env.now + 1800000)
                                 else r.locked_until }
      else r) := by
  rw [login_not_locked auth env db req u h hl]
  unfold loginUnlocked
  by_cases h5 : u.login_attempts + 1 ≥ 5
  · simp only [hp, h5, if_true, Bool.not_false, Response.status, lockUser,
      incrementLoginAttempts, List.map_map, true_and]
    apply List.map_congr_left
    intro r _
    by_cases hr : r.id = u.id <;> simp [Function.comp, hr]
  · simp only [hp, h5, if_true, if_false, Bool.not_false, Response.status,
      incrementLoginAttempts, true_and]

/-- The account a wrong password was tried on, after the request. -/
theorem account_after_wrong_password (auth : QuantumAuth) (env : Env) (db : Db)
    (req : LoginRequest) (u : User) (h : account db req.identifier = some u)
    (hl : ∀ t, u.locked_until = some t → t ≤ env.now)
    (hp : verifyPassword env u.password_hash req.password = false) :
    account (login auth env db req).db req.identifier =
      some { u with login_attempts := u.login_attempts + 1,
                    locked_until := if u.login_attempts + 1 ≥ 5 then some (env.now + 1800000)
                                    else u.locked_until } := by
  have hu := (login_wrong_password auth env db req u h hl hp).2.2
  rw [account_map db _ _ req.identifier _ hu, h]
  · simp
  · intro r
    by_cases hr : r.id = u.id <;> simp [hr]

theorem loginRun_append (auth : QuantumAuth) (db : Db) (l1 l2 : List (Env × LoginRequest)) :
    loginRun auth db (l1 ++ l2) = loginRun auth (loginRun auth db l1) l2 := by
  induction l1 generalizing db with
  | nil => rfl
  | cons s rest ih =>
    obtain ⟨env, req⟩ := s
    simp only [List.cons_append, loginRun]
    exact ih _

/-- A run of wrong passwords that stays below the threshold only counts. -/
theorem account_after_failures (auth : QuantumAuth) (identifier : Option String)
    (l : List (Env × LoginRequest)) :
    ∀ (db : Db) (u : User), account db identifier = some u → u.locked_until = none →
      u.login_attempts + l.length ≤ 4 →
      (∀ s ∈ l, s.2.identifier = identifier ∧
        verifyPassword s.1 u.password_hash s.2.password = false) →
      account (loginRun auth db l) identifier =
        some { u with login_attempts := u.login_attempts + l.length } := by
  induction l with
  | nil => intro db u h _ _ _; simpa using h
  | cons s rest ih =>
    intro db u h hl hlen hw
    obtain ⟨env, req⟩ := s
    have hs := hw (env, req) (List.mem_cons_self _ _)
    simp only at hs
    obtain ⟨hid, hp⟩ := hs
    subst hid
    simp only [List.length_cons] at hlen
    have hnl : ∀ t, u.locked_until = some t → t ≤ env.now := by
      intro t ht
      rw [hl] at ht
      cases ht
    have h5 : ¬ (u.login_attempts + 1 ≥ 5) := by omega
    have hacc := account_after_wrong_password auth env db req u h hnl hp
    simp only [h5, if_false] at hacc
    have := ih (login auth env db req).db _ hacc hl (by simp only; omega)
      (fun s hs => hw s (List.mem_cons_of_mem _ hs))
    simp only [loginRun, this, List.length_cons, Option.some.injEq]
    congr 1
    omega

/-! ## C2: five wrong passwords in a row -/

/-- C2. Starting from an account with `login_attempts = 0` and no lock, take five consecutive
wrong-password logins on that account, handled one after the other. For the request at
position `k` (0 to 4): before it the counter is `k`, after it the counter is `k + 1` (one
increment per attempt); the first four are answered 401 and leave `locked_until` unset; the
fifth is answered 423 and sets `locked_until` to its clock value plus 30 minutes
(1 800 000 ms). -/
theorem C2_five_wrong_passwords (auth : QuantumAuth) (db : Db) (identifier : Option String)
    (u : User) (steps : List (Env × LoginRequest))
    (hacc : account db identifier = some u)
    (hzero : u.login_attempts = 0) (hunlocked : u.locked_until = none)
    (hlen : steps.length = 5)
    (hwrong : ∀ s ∈ steps, s.2.identifier = identifier ∧
      verifyPassword s.1 u.password_hash s.2.password = false) :
    ∀ (k : Nat) (env : Env) (req : LoginRequest), steps[k]? = some (env, req) →
      account (loginRun auth db (steps.take k)) identifier =
        some { u with login_attempts := k } ∧
      (login auth env (loginRun auth db (steps.take k)) req).response.status =
        (if k < 4 then 401 else 423) ∧
      (login auth env (loginRun auth db (steps.take k)) req).tokens = none ∧
      account (login auth env (loginRun auth db (steps.take k)) req).db identifier =
        some { u with login_attempts := k + 1,
                      locked_until := if k < 4 then none else some (env.now + 1800000) } := by
  intro k env req hk
  have hk5 : k < steps.length := by
    by_contra hge
    rw [List.getElem?_eq_none (by omega)] at hk
    cases hk
  have hmem : (env, req) ∈ steps := List.getElem?_mem hk
  obtain ⟨hid, hp⟩ := hwrong _ hmem
  simp only at hid hp
  have hbefore := account_after_failures auth identifier (steps.take k) db u hacc hunlocked
    (by simp only [List.length_take]; omega)
    (fun s hs => hwrong s (List.mem_of_mem_take hs))
  have hlk : (steps.take k).length = k := by simp only [List.length_take]; omega
  rw [hlk, hzero, Nat.zero_add] at hbefore
  subst hid
  have hnl : ∀ t, ({ u with login_attempts := k } : User).locked_until = some t →
      t ≤ env.now := by
    intro t ht
    simp only [hunlocked] at ht
    cases ht
  have h1 := login_wrong_password auth env _ req _ hbefore hnl hp
  have h2 := account_after_wrong_password auth env _ req _ hbefore hnl hp
  refine ⟨hbefore, ?_, h1.2.1, ?_⟩
  · rw [h1.1]
    by_cases h4 : k < 4
    · have : ¬ (k + 1 ≥ 5) := by omega
      simp [h4, this]
    · have : k + 1 ≥ 5 := by omega
      simp [h4, this]
  · rw [h2]
    by_cases h4 : k < 4
    · have : ¬ (k + 1 ≥ 5) := by omega
      simp [h4, this, hunlocked]
    · have : k + 1 ≥ 5 := by omega
      simp [h4, this]

/-- Witness of C2: the fifth wrong password for `alice` is answered 423 and locks the account
until 5000 + 1 800 000. -/
theorem C2_five_wrong_passwords_witness :
    (login sampleAuth (sampleEnv 5000) (loginRun sampleAuth sampleDb (fiveWrong.take 4))
        (loginReq "alice" "wrong" none)).response.status = 423 ∧
      account (login sampleAuth (sampleEnv 5000) (loginRun sampleAuth sampleDb (fiveWrong.take 4))
        (loginReq "alice" "wrong" none)).db (some "alice") =
        some { alice with login_attempts := 5, locked_until := some 1805000 } := by
  have h := C2_five_wrong_passwords sampleAuth sampleDb (some "alice") alice fiveWrong
    (by decide) rfl rfl rfl (by decide) 4 (sampleEnv 5000) (loginReq "alice" "wrong" none) rfl
  exact ⟨h.2.1, h.2.2.2⟩

/-! ## C3: the lock gate -/

/-- State of the account after five consecutive wrong passwords from a fresh state. -/
theorem account_after_five_failures (auth : QuantumAuth) (db : Db) (identifier : Option String)
    (u : User) (steps : List (Env × LoginRequest)) (env5 : Env) (req5 : LoginRequest)
    (hacc : account db identifier = some u)
    (hzero : u.login_attempts = 0) (hunlocked : u.locked_until = none)
    (hlen : steps.length = 5)
    (hwrong : ∀ s ∈ steps, s.2.identifier = identifier ∧
      verifyPassword s.1 u.password_hash s.2.password = false)
    (h5 : steps[4]? = some (env5, req5)) :
    account (loginRun auth db steps) identifier =
      some { u with login_attempts := 5, locked_until := some (env5.now + 1800000) } := by
  have hsplit : steps = steps.take 4 ++ [(env5, req5)] := by
    have h1 : steps.take 5 = steps := List.take_of_length_le (by omega)
    have h2 := List.take_succ (l := steps) (n := 4)
    rw [h1, h5] at h2
    simpa using h2
  obtain ⟨hid, hp⟩ := hwrong _ (List.getElem?_mem h5)
  simp only at hid hp
  have hbefore := account_after_failures auth identifier (steps.take 4) db u hacc hunlocked
    (by simp only [List.length_take]; omega)
    (fun s hs => hwrong s (List.mem_of_mem_take hs))
  have hlk : (steps.take 4).length = 4 := by simp only [List.length_take]; omega
  rw [hlk, hzero, Nat.zero_add] at hbefore
  subst hid
  have hnl : ∀ t, ({ u with login_attempts := 4 } : User).locked_until = some t →
      t ≤ env5.now := by
    intro t ht
    simp only [hunlocked] at ht
    cases ht
  have h2 := account_after_wrong_password auth env5 _ req5 _ hbefore hnl hp
  rw [hsplit, loginRun_append]
  simpa [loginRun] using h2

/-- C3. A login on an account whose `locked_until` is later than now is answered 423 with the
stored `locked_until`, whatever the password and the two-factor code are, and changes nothing
in the database (so `login_attempts` and `locked_until` stay as they were). In particular,
after five consecutive wrong passwords from a fresh account, a sixth attempt made before the
lock expires is rejected in this way, even with the correct password. -/
theorem C3_locked_account_rejected (auth : QuantumAuth) :
    (∀ (env : Env) (db : Db) (req : LoginRequest) (u : User) (t : Nat),
      account db req.identifier = some u → u.locked_until = some t → env.now < t →
      login auth env db req =
        ⟨.json 423 (.locked "Compte temporairement verrouillé" t), db, none⟩) ∧
    (∀ (db : Db) (identifier : Option String) (u : User) (steps : List (Env × LoginRequest))
      (env5 : Env) (req5 : LoginRequest) (env6 : Env) (req6 : LoginRequest),
      account db identifier = some u → u.login_attempts = 0 → u.locked_until = none →
      steps.length = 5 →
      (∀ s ∈ steps, s.2.identifier = identifier ∧
        verifyPassword s.1 u.password_hash s.2.password = false) →
      steps[4]? = some (env5, req5) →
      req6.identifier = identifier → env6.now < env5.now + 1800000 →
      login auth env6 (loginRun auth db steps) req6 =
        ⟨.json 423 (.locked "Compte temporairement verrouillé" (env5.now + 1800000)),
          loginRun auth db steps, none⟩) := by
  refine ⟨fun env db req u t h hl ht => login_locked auth env db req u t h hl ht, ?_⟩
  intro db identifier u steps env5 req5 env6 req6 hacc hzero hunlocked hlen hwrong h5 hid hnow
  have hafter := account_after_five_failures auth db identifier u steps env5 req5 hacc hzero
    hunlocked hlen hwrong h5
  subst hid
  exact login_locked auth env6 _ req6 _ (env5.now + 1800000) hafter rfl hnow

/-- Witness of C3: after five wrong passwords, `alice` is refused at clock value 6000 although
the password is the right one; the database is left as it was. -/
theorem C3_locked_account_rejected_witness :
    login sampleAuth (sampleEnv 6000) (loginRun sampleAuth sampleDb fiveWrong)
        (loginReq "alice" "s3cret" none) =
      ⟨.json 423 (.locked "Compte temporairement verrouillé" 1805000),
        loginRun sampleAuth sampleDb fiveWrong, none⟩ :=
  (C3_locked_account_rejected sampleAuth).2 sampleDb (some "alice") alice fiveWrong
    (sampleEnv 5000) (loginReq "alice" "wrong" none) (sampleEnv 6000)
    (loginReq "alice" "s3cret" none) (by decide) rfl rfl rfl (by decide) rfl rfl (by decide)

/-! ## C4: a successful login resets the lockout state -/

/-- C4. Every login answered 200 leaves the account with `login_attempts = 0` and
`locked_until` cleared, whatever their values were before the request. -/
theorem C4_success_resets_lockout (auth : QuantumAuth) (env : Env) (db : Db) (req : LoginRequest)
    (h : (login auth env db req).response.status = 200) :
    ∃ u u2, account db req.identifier = some u ∧
      (login auth env db req).tokens = some (generateTokenPair auth env u) ∧
      account (login auth env db req).db req.identifier = some u2 ∧
      u2.login_attempts = 0 ∧ u2.locked_until = none := by
  cases hacc : account db req.identifier with
  | none =>
    rw [login_no_account auth env db req hacc] at h
    simp [Response.status] at h
  | some u =>
    have hnl : ∀ t, u.locked_until = some t → t ≤ env.now := by
      intro t hl
      by_contra hlt
      rw [login_locked auth env db req u t hacc hl (by omega)] at h
      simp [Response.status] at h
    rw [login_not_locked auth env db req u hacc hnl] at h ⊢
    rw [loginUnlocked_of_status auth env db req u h]
    have hmap := account_map db
      (fun r => if r.id = u.id then
        { r with login_attempts := 0, locked_until := none, last_login_at := some env.now }
        else r)
      (fun r => by by_cases hr : r.id = u.id <;> simp [hr]) req.identifier
      (loginSuccess auth env db req u).db (loginSuccess_users auth env db req u)
    rw [hacc] at hmap
    refine ⟨u, _, rfl, rfl, hmap, ?_, ?_⟩ <;> simp

/-- Witness of C4: a locked-out `alice` whose lock has expired logs in at clock value 2 000 000
and her counter is back to 0. -/
theorem C4_success_resets_lockout_witness :
    ∃ u u2, account (loginRun sampleAuth sampleDb fiveWrong) (some "alice") = some u ∧
      (login sampleAuth (sampleEnv 2000000) (loginRun sampleAuth sampleDb fiveWrong)
        (loginReq "alice" "s3cret" none)).tokens =
        some (generateTokenPair sampleAuth (sampleEnv 2000000) u) ∧
      account (login sampleAuth (sampleEnv 2000000) (loginRun sampleAuth sampleDb fiveWrong)
        (loginReq "alice" "s3cret" none)).db (some "alice") = some u2 ∧
      u2.login_attempts = 0 ∧ u2.locked_until = none :=
  C4_success_resets_lockout sampleAuth (sampleEnv 2000000) (loginRun sampleAuth sampleDb fiveWrong)
    (loginReq "alice" "s3cret" none) (by decide)

/-! ## C5: a lock implies a counter at the threshold -/

/-- The three possible effects of one login request on table `users`: none, the failed-attempt
update on the rows with the id of the matched account, or the reset of those rows. -/
theorem login_users (auth : QuantumAuth) (env : Env) (db : Db) (req : LoginRequest) :
    (login auth env db req).db.users = db.users ∨
    ∃ u, account db req.identifier = some u ∧
      ((login auth env db req).db.users = db.users.map (fun r =>
        if r.id = u.id then
          { r with login_attempts := r.login_attempts + 1,
                   locked_until := if u.login_attempts + 1 ≥ 5 then some (env.now + 1800000)
                                   else r.locked_until }
        else r) ∨
      (login auth env db req).db.users = db.users.map (fun r =>
        if r.id = u.id then
          { r with login_attempts := 0, locked_until := none, last_login_at := some env.now }
        else r)) := by
  cases hacc : account db req.identifier with
  | none =>
    rw [login_no_account auth env db req hacc]
    exact Or.inl rfl
  | some u =>
    by_cases hnl : ∀ t, u.locked_until = some t → t ≤ env.now
    · cases hp : verifyPassword env u.password_hash req.password
      · exact Or.inr ⟨u, rfl, Or.inl (login_wrong_password auth env db req u hacc hnl hp).2.2⟩
      · rw [login_not_locked auth env db req u hacc hnl]
        by_cases hst : (loginUnlocked auth env db req u).response.status = 200
        · rw [loginUnlocked_of_status auth env db req u hst]
          exact Or.inr ⟨u, rfl, Or.inr rfl⟩
        · left
          revert hst
          unfold loginUnlocked
          cases hs : truthy u.two_factor_secret
          · simp [hp, loginSuccess_response, Response.status]
          · cases hc : req.twoFactorCode with
            | none => simp [hp, truthy]
            | some c =>
              by_cases hce : c = ""
              · simp [hp, truthy, hce]
              · cases hv : verifyTwoFactor env u c <;>
                  simp [hp, truthy, hce, hv, loginSuccess_response, Response.status]
    · push_neg at hnl
      obtain ⟨t, hl, ht⟩ := hnl
      rw [login_locked auth env db req u t hacc hl ht]
      exact Or.inl rfl

/-- One login request keeps the ids of table `users` and, when ids are unique, keeps for each
row the implication "locked implies at least five failed attempts". -/
theorem login_preserves_lock_invariant (auth : QuantumAuth) (env : Env) (db : Db)
    (req : LoginRequest) (uid : Nat) (hnodup : (db.users.map User.id).Nodup)
    (hinv : ∀ v ∈ db.users, v.id = uid → v.locked_until ≠ none → 5 ≤ v.login_attempts) :
    (login auth env db req).db.users.map User.id = db.users.map User.id ∧
    ∀ v ∈ (login auth env db req).db.users,
      v.id = uid → v.locked_until ≠ none → 5 ≤ v.login_attempts := by
  rcases login_users auth env db req with h | ⟨u, hacc, h | h⟩
  · rw [h]
    exact ⟨rfl, hinv⟩
  · have hu := account_mem db req.identifier u hacc
    rw [h]
    refine ⟨?_, ?_⟩
    · rw [List.map_map]
      apply List.map_congr_left
      intro r _
      by_cases hr : r.id = u.id <;> simp [Function.comp, hr]
    · intro v hv hid hlock
      obtain ⟨r, hr, rfl⟩ := List.mem_map.mp hv
      by_cases hru : r.id = u.id
      · have hreq : r = u := List.inj_on_of_nodup_map hnodup hr hu hru
        subst hreq
        simp only [if_true] at hid hlock ⊢
        by_cases h5 : r.login_attempts + 1 ≥ 5
        · omega
        · simp only [h5, if_false] at hlock
          have := hinv r hr hid hlock
          omega
      · simp only [hru, if_false] at hid hlock ⊢
        exact hinv r hr hid hlock
  · rw [h]
    refine ⟨?_, ?_⟩
    · rw [List.map_map]
      apply List.map_congr_left
      intro r _
      by_cases hr : r.id = u.id <;> simp [Function.comp, hr]
    · intro v hv hid hlock
      obtain ⟨r, hr, rfl⟩ := List.mem_map.mp hv
      by_cases hru : r.id = u.id
      · simp [hru] at hlock
      · simp only [hru, if_false] at hid hlock ⊢
        exact hinv r hr hid hlock

/-- The invariant of `login_preserves_lock_invariant` along a sequence of login requests. -/
theorem loginRun_preserves_lock_invariant (auth : QuantumAuth) (uid : Nat)
    (steps : List (Env × LoginRequest)) :
    ∀ db : Db, (db.users.map User.id).Nodup →
      (∀ v ∈ db.users, v.id = uid → v.locked_until ≠ none → 5 ≤ v.login_attempts) →
      ∀ v ∈ (loginRun auth db steps).users,
        v.id = uid → v.locked_until ≠ none → 5 ≤ v.login_attempts := by
  induction steps with
  | nil => intro db _ hinv; exact hinv
  | cons s rest ih =>
    intro db hnodup hinv
    obtain ⟨env, req⟩ := s
    have hstep := login_preserves_lock_invariant auth env db req uid hnodup hinv
    exact ih (login auth env db req).db (by rw [hstep.1]; exact hnodup) hstep.2

/-- C5. Take a users table whose ids are pairwise distinct (`id` is the key of the table) and
an account `u` in it that is fresh (`login_attempts = 0`, `locked_until` unset). After any
finite sequence of login requests handled one after the other (any identifiers, passwords,
two-factor codes and clock values), the row of that account satisfies: `locked_until` set
implies `login_attempts ≥ 5`. -/
theorem C5_lock_implies_threshold (auth : QuantumAuth) (db : Db) (u : User)
    (steps : List (Env × LoginRequest))
    (hnodup : (db.users.map User.id).Nodup) (hu : u ∈ db.users)
    (hzero : u.login_attempts = 0) (hunlocked : u.locked_until = none) :
    ∀ v ∈ (loginRun auth db steps).users,
      v.id = u.id → v.locked_until ≠ none → v.login_attempts ≥ 5 := by
  apply loginRun_preserves_lock_invariant auth u.id steps db hnodup
  intro v hv hid hlock
  have hvu : v = u := List.inj_on_of_nodup_map hnodup hv hu hid
  subst hvu
  exact absurd hunlocked hlock

/-- Witness of C5: after the five wrong passwords the row of `alice` is locked and its counter
is 5. -/
theorem C5_lock_implies_threshold_witness :
    (loginRun sampleAuth sampleDb fiveWrong).users =
        [{ alice with login_attempts := 5, locked_until := some 1805000 }, bob] ∧
      ({ alice with login_attempts := 5, locked_until := some 1805000 } : User).login_attempts
        ≥ 5 :=
  ⟨by decide,
    C5_lock_implies_threshold sampleAuth sampleDb alice fiveWrong (by decide) (by decide) rfl rfl
      { alice with login_attempts := 5, locked_until := some 1805000 } (by decide) rfl
      (by decide)⟩

/-- Why C5 asks for distinct ids: with two rows of the same id, a failed login on one of them
locks the other one too, whose counter is then 1. -/
theorem lock_invariant_needs_unique_ids :
    (login sampleAuth (sampleEnv 1000)
        { sampleDb with users := [alice, aliceTwin] } (loginReq "twin" "wrong" none)).db.users =
      [{ alice with login_attempts := 1, locked_until := some 1801000 },
       { aliceTwin with login_attempts := 5, locked_until := some 1801000 }] := by
  decide

/-! ## C6: the second factor -/

/-- C6. For an account that the lock gate lets through, that has a (truthy)
`two_factor_secret`, and a login whose password verifies: without a (truthy) `twoFactorCode`
the answer is 206 with `requires2FA`; with a code that `verifyTwoFactor` rejects the answer is
401 "Code 2FA invalide"; in both cases the database is returned as it was, so `login_attempts`
and `locked_until` are untouched. -/
theorem C6_second_factor_not_counted (auth : QuantumAuth) (env : Env) (db : Db)
    (req : LoginRequest) (u : User)
    (hacc : account db req.identifier = some u)
    (hnl : u.locked_until = none ∨ ∃ t, u.locked_until = some t ∧ t ≤ env.now)
    (hsecret : truthy u.two_factor_secret = true)
    (hp : verifyPassword env u.password_hash req.password = true) :
    (truthy req.twoFactorCode = false →
      login auth env db req = ⟨.json 206 (.requires2FA ["totp"]), db, none⟩) ∧
    (∀ c, req.twoFactorCode = some c → c ≠ "" → verifyTwoFactor env u c = false →
      login auth env db req = ⟨.json 401 (.error "Code 2FA invalide"), db, none⟩) := by
  have hnl2 : ∀ t, u.locked_until = some t → t ≤ env.now := by
    intro t ht
    rcases hnl with h | ⟨t2, h, hle⟩
    · rw [h] at ht
      cases ht
    · rw [h] at ht
      cases ht
      exact hle
  rw [login_not_locked auth env db req u hacc hnl2]
  unfold loginUnlocked
  refine ⟨?_, ?_⟩
  · intro hc
    simp [hp, hsecret, hc]
  · intro c hc hce hv
    have htc : truthy (some c) = true := by simp [truthy, hce]
    simp [hp, hsecret, hc, htc, hv]

/-- Witness of C6: `bob` is enrolled; without a code he gets 206, with a wrong code 401, and
the database is unchanged. -/
theorem C6_second_factor_not_counted_witness :
    login sampleAuth (sampleEnv 1000) sampleDb (loginReq "bob" "hunter2" none) =
        ⟨.json 206 (.requires2FA ["totp"]), sampleDb, none⟩ ∧
      login sampleAuth (sampleEnv 1000) sampleDb (loginReq "bob" "hunter2" (some "000000")) =
        ⟨.json 401 (.error "Code 2FA invalide"), sampleDb, none⟩ :=
  ⟨(C6_second_factor_not_counted sampleAuth (sampleEnv 1000) sampleDb
      (loginReq "bob" "hunter2" none) bob (by decide) (Or.inl rfl) (by decide) (by decide)).1
      (by decide),
    (C6_second_factor_not_counted sampleAuth (sampleEnv 1000) sampleDb
      (loginReq "bob" "hunter2" (some "000000")) bob (by decide) (Or.inl rfl) (by decide)
      (by decide)).2 "000000" rfl (by decide) (by decide)⟩

/-! ## Auxiliary facts about the authorization handler -/

/-- The array test of `validateScopes` is list inclusion. -/
theorem validateScopes_iff (requested allowed : List String) :
    validateScopes requested allowed = true ↔ ∀ s ∈ requested, s ∈ allowed := by
  unfold validateScopes
  simp [List.all_eq_true]

/-- The handler past the client lookup, the redirect check and the bearer token check. -/
theorem oauthAuthorize_authenticated (auth : QuantumAuth) (env : Env) (db : Db)
    (req : AuthorizeRequest) (client : Application) (token : String) (decoded : Payload)
    (hclient : activeClient db req.client_id = some client)
    (hredirect : includes client.redirect_uris req.redirect_uri = true)
    (htoken : bearerToken req.authorization = some token) (hne : token ≠ "")
    (hverify : verifyToken auth env (some token) "access" = .ok decoded) :
    oauthAuthorize auth env db req =
      if !validateScopes (requestedScopes req.scope) client.scopes then
        ⟨.json 400 (.error "Scopes invalides"), none⟩
      else if env.urlParses (req.redirect_uri.getD "") then
        ⟨.redirect (.callback (req.redirect_uri.getD "")
            (generateAuthorizationCode env req.client_id decoded.uid
              (requestedScopes req.scope)).code
            (if truthy req.state then req.state else none)),
          some (generateAuthorizationCode env req.client_id decoded.uid
            (requestedScopes req.scope))⟩
      else
        ⟨.json 500 (.error "Invalid URL"),
          some (generateAuthorizationCode env req.client_id decoded.uid
            (requestedScopes req.scope))⟩ := by
  unfold activeClient at hclient
  unfold oauthAuthorize
  cases hsel : selectActiveClient db req.client_id with
  | nil => simp [hsel] at hclient
  | cons c rest =>
    simp only [hsel, List.head?_cons, Option.some.injEq] at hclient
    subst hclient
    have htr : truthy (some token) = true := by simp [truthy, hne]
    simp only [hredirect, htoken, htr, hverify, Bool.not_true, Bool.false_eq_true, if_false]

/-- A redirect URI that is none of the registered ones fails the `includes` test. -/
theorem includes_eq_false (xs : List String) (x : Option String)
    (h : ∀ uri ∈ xs, x ≠ some uri) : includes xs x = false := by
  cases x with
  | none => rfl
  | some v =>
    simp only [includes, List.contains_eq_any_beq, List.any_eq_false, beq_iff_eq]
    intro uri huri heq
    exact h uri huri (by rw [heq])

/-- Whatever the handler mints was built from scopes that passed `validateScopes` against the
scopes of the client row it selected. -/
theorem oauthAuthorize_authCode (auth : QuantumAuth) (env : Env) (db : Db)
    (req : AuthorizeRequest) (authCode : AuthorizationCode)
    (h : (oauthAuthorize auth env db req).authCode = some authCode) :
    ∃ client, activeClient db req.client_id = some client ∧
      validateScopes (requestedScopes req.scope) client.scopes = true ∧
      authCode.scopes = requestedScopes req.scope ∧
      authCode.expiresAt = env.now + 600000 := by
  revert h
  unfold oauthAuthorize activeClient
  cases hsel : selectActiveClient db req.client_id with
  | nil => simp
  | cons client rest =>
    simp only [List.head?_cons, Option.some.injEq, exists_eq_left']
    cases hr : includes client.redirect_uris req.redirect_uri
    · simp
    · cases ht : truthy (bearerToken req.authorization)
      · simp
      · cases hv : verifyToken auth env (bearerToken req.authorization) "access" with
        | error message => simp
        | ok decoded =>
          cases hs : validateScopes (requestedScopes req.scope) client.scopes
          · simp
          · cases hu : env.urlParses (req.redirect_uri.getD "") <;>
              simp only [Bool.not_true, Bool.false_eq_true, if_false, if_true,
                Option.some.injEq, true_and] <;>
              · intro h
                subst h
                exact ⟨rfl, rfl⟩

/-! ## C7: scope validation -/

/-- C7. `validateScopes requested allowed` is true exactly when every requested scope is an
allowed one (so the empty request passes); and for an active client, a registered redirect URI
and a bearer token that verifies, `GET /oauth/authorize` answers 400 "Scopes invalides"
exactly when some requested scope is outside the scopes of the client (no other 400 is
possible there). -/
theorem C7_scope_check :
    (∀ requested allowed : List String,
      validateScopes requested allowed = true ↔ ∀ s ∈ requested, s ∈ allowed) ∧
    (∀ allowed : List String, validateScopes [] allowed = true) ∧
    (∀ (auth : QuantumAuth) (env : Env) (db : Db) (req : AuthorizeRequest)
      (client : Application) (token : String) (decoded : Payload),
      activeClient db req.client_id = some client →
      includes client.redirect_uris req.redirect_uri = true →
      bearerToken req.authorization = some token → token ≠ "" →
      verifyToken auth env (some token) "access" = .ok decoded →
      ((oauthAuthorize auth env db req).response = .json 400 (.error "Scopes invalides") ↔
        ∃ s ∈ requestedScopes req.scope, s ∉ client.scopes) ∧
      ((oauthAuthorize auth env db req).response.status = 400 ↔
        ∃ s ∈ requestedScopes req.scope, s ∉ client.scopes)) := by
  refine ⟨validateScopes_iff, fun allowed => rfl, ?_⟩
  intro auth env db req client token decoded hclient hredirect htoken hne hverify
  rw [oauthAuthorize_authenticated auth env db req client token decoded hclient hredirect
    htoken hne hverify]
  cases hs : validateScopes (requestedScopes req.scope) client.scopes
  · have hex : ∃ s ∈ requestedScopes req.scope, s ∉ client.scopes := by
      by_contra hno
      push_neg at hno
      have := (validateScopes_iff _ _).mpr hno
      rw [hs] at this
      cases this
    simp [hex, Response.status]
  · have hall := (validateScopes_iff _ _).mp hs
    have hex : ¬ ∃ s ∈ requestedScopes req.scope, s ∉ client.scopes := by
      rintro ⟨s, hs1, hs2⟩
      exact hs2 (hall s hs1)
    cases hu : env.urlParses (req.redirect_uri.getD "") <;> simp [hex, Response.status]

/-- Witness of C7: client `shop` allows `openid profile email`; asking for `openid admin` is
answered 400 "Scopes invalides". -/
theorem C7_scope_check_witness :
    (oauthAuthorize sampleAuth (sampleEnv 1000) sampleDb
        (authorizeReq "https://shop.example/cb" (some "openid admin"))).response =
      .json 400 (.error "Scopes invalides") :=
  ((C7_scope_check.2.2 sampleAuth (sampleEnv 1000) sampleDb
      (authorizeReq "https://shop.example/cb" (some "openid admin")) shop "at-alice"
      { uid := 1, username := "alice", email := "alice@nexus.io", role := "user",
        affiliate := "AFF-ALICE", iat := 0, jti := "uuid-0" }
      (by decide) (by decide) (by decide) (by decide) rfl).1).mpr
    ⟨"admin", by decide, by decide⟩

/-! ## C8: the redirect URI check -/

/-- C8. For an active client and a `redirect_uri` that is none of its registered redirect
URIs (or is absent), `GET /oauth/authorize` answers 400 "Redirect URI invalide" and mints no
authorization code, whatever the scope, the state and the `Authorization` header are. -/
theorem C8_redirect_mismatch (auth : QuantumAuth) (env : Env) (db : Db)
    (req : AuthorizeRequest) (client : Application)
    (hclient : activeClient db req.client_id = some client)
    (hredirect : ∀ uri ∈ client.redirect_uris, req.redirect_uri ≠ some uri) :
    oauthAuthorize auth env db req = ⟨.json 400 (.error "Redirect URI invalide"), none⟩ := by
  unfold activeClient at hclient
  unfold oauthAuthorize
  cases hsel : selectActiveClient db req.client_id with
  | nil => simp [hsel] at hclient
  | cons c rest =>
    simp only [hsel, List.head?_cons, Option.some.injEq] at hclient
    subst hclient
    simp [includes_eq_false _ _ hredirect]

/-- Witness of C8: a request of `shop` for an unregistered callback, with a valid token and
valid scopes, is refused and no code is minted. -/
theorem C8_redirect_mismatch_witness :
    oauthAuthorize sampleAuth (sampleEnv 1000) sampleDb
        (authorizeReq "https://evil.example/cb" (some "openid")) =
      ⟨.json 400 (.error "Redirect URI invalide"), none⟩ :=
  C8_redirect_mismatch sampleAuth (sampleEnv 1000) sampleDb
    (authorizeReq "https://evil.example/cb" (some "openid")) shop (by decide) (by decide)

/-! ## C9: scopes of a minted authorization code -/

/-- C9. Every authorization code minted by `GET /oauth/authorize` carries the requested scopes
(the split `scope` parameter, or `openid profile email` when the parameter is omitted), and
each of them is one of the scopes of the client the code was issued for. -/
theorem C9_code_scopes_subset (auth : QuantumAuth) (env : Env) (db : Db)
    (req : AuthorizeRequest) (authCode : AuthorizationCode)
    (h : (oauthAuthorize auth env db req).authCode = some authCode) :
    ∃ client, activeClient db req.client_id = some client ∧
      (∀ s ∈ authCode.scopes, s ∈ client.scopes) ∧
      (truthy req.scope = true → authCode.scopes = jsSplit ' ' (req.scope.getD "")) ∧
      (truthy req.scope = false → authCode.scopes = ["openid", "profile", "email"]) := by
  obtain ⟨client, hclient, hvalid, hscopes, _⟩ := oauthAuthorize_authCode auth env db req authCode h
  refine ⟨client, hclient, ?_, ?_, ?_⟩
  · rw [hscopes]
    exact (validateScopes_iff _ _).mp hvalid
  · intro ht
    rw [hscopes]
    simp [requestedScopes, ht]
  · intro ht
    rw [hscopes]
    simp [requestedScopes, ht]

/-- Witness of C9: without a `scope` parameter, `shop` gets a code for the baseline scopes,
which are all allowed for `shop`. -/
theorem C9_code_scopes_subset_witness :
    (oauthAuthorize sampleAuth (sampleEnv 1000) sampleDb
        (authorizeReq "https://shop.example/cb" none)).authCode =
      some { code := "c0de", clientId := some "shop", userId := 1,
             scopes := ["openid", "profile", "email"], expiresAt := 601000 } ∧
    ∃ client, activeClient sampleDb (some "shop") = some client ∧
      ∀ s ∈ ["openid", "profile", "email"], s ∈ client.scopes :=
  ⟨by decide,
    (C9_code_scopes_subset sampleAuth (sampleEnv 1000) sampleDb
      (authorizeReq "https://shop.example/cb" none)
      { code := "c0de", clientId := some "shop", userId := 1,
        scopes := ["openid", "profile", "email"], expiresAt := 601000 }
      (by decide)).imp (fun _ hc => ⟨hc.1, hc.2.1⟩)⟩

/-! ## C10: redemption of an authorization code -/

/-- The `authorization_code` branch keeps no record of what was presented: a request answered
200 once is answered 200 again at any later time, with a token pair generated again. -/
theorem oauthToken_code_replay (auth : QuantumAuth) (env1 env2 : Env) (db : Db)
    (req : TokenRequest) (hgrant : req.grant_type = some "authorization_code")
    (h : ((oauthToken auth env1 db req).response.map Response.status) = some 200) :
    ((oauthToken auth env2 db req).response.map Response.status) = some 200 ∧
      (oauthToken auth env2 db req).tokens ≠ none := by
  revert h
  unfold oauthToken
  cases hsel : selectClientByCredentials db req.client_id req.client_secret with
  | nil => simp [Response.status]
  | cons c rest =>
    simp only [hgrant, if_true]
    unfold tokenFromCode
    cases hcode : req.code with
    | absent => simp [Response.status]
    | str v => simp [Response.status]
    | obj o =>
      cases husers : selectUserById db o.userId with
      | nil => simp [husers, Response.status]
      | cons user tail =>
        cases hscopes : o.scopes with
        | none => simp [husers, hscopes, Response.status]
        | some scopes => simp [husers, hscopes, Response.status]

/-- The string that `GET /oauth/authorize` hands out as `code` is never exchanged for tokens:
`code.userId` is then `undefined` and the handler ends in its `catch` block. -/
theorem oauthToken_string_code_rejected (auth : QuantumAuth) (env : Env) (db : Db)
    (req : TokenRequest) (value : String)
    (hgrant : req.grant_type = some "authorization_code") (hcode : req.code = .str value) :
    (oauthToken auth env db req).tokens = none ∧
      ((oauthToken auth env db req).response.map Response.status) ≠ some 200 := by
  unfold oauthToken
  cases hsel : selectClientByCredentials db req.client_id req.client_secret with
  | nil => simp [Response.status]
  | cons c rest => simp [hgrant, hcode, tokenFromCode, Response.status]

/-- C10 (the code replays). The same token request, whose `code` field is an object naming
account 1, is presented twice by client `shop`, at clock values 1000 and 2000: both
presentations are answered 200 with a token pair, where the claim allows at most one. -/
theorem C10_code_replay_accepted :
    oauthTokenRun sampleAuth sampleDb [(sampleEnv 1000, redeemReq), (sampleEnv 2000, redeemReq)] =
      [⟨some (.json 200 (.token "k-access.uuid-0" "k-refresh.uuid-1" "Bearer" 900
          (some "openid"))),
        some { accessToken := "k-access.uuid-0", refreshToken := "k-refresh.uuid-1",
               expiresIn := 900, tokenType := "Bearer" }⟩,
       ⟨some (.json 200 (.token "k-access.uuid-0" "k-refresh.uuid-1" "Bearer" 900
          (some "openid"))),
        some { accessToken := "k-access.uuid-0", refreshToken := "k-refresh.uuid-1",
               expiresIn := 900, tokenType := "Bearer" }⟩] := by
  decide

/-! ## C11: expiry of an authorization code -/

/-- A code is created with `expiresAt` ten minutes (600 000 ms) after the clock value. -/
theorem generateAuthorizationCode_expiresAt (env : Env) (clientId : Option String) (userId : Nat)
    (scopes : List String) :
    (generateAuthorizationCode env clientId userId scopes).expiresAt = env.now + 600000 := rfl

/-- C11 (expiry is not checked). The code minted at clock value 1000 has `expiresAt = 601000`;
presented at clock value 10 000 000, long after that, it is still answered 200 with a token
pair, where the claim requires a rejection without tokens. -/
theorem C11_expired_code_accepted :
    generateAuthorizationCode (sampleEnv 1000) (some "shop") 1 ["openid"] =
      { code := "c0de", clientId := some "shop", userId := 1, scopes := ["openid"],
        expiresAt := 601000 } ∧
    redeemReq.code = .obj { code := some "c0de", clientId := some "shop", userId := some 1,
                            scopes := some ["openid"], expiresAt := some 601000 } ∧
    oauthToken sampleAuth (sampleEnv 10000000) sampleDb redeemReq =
      ⟨some (.json 200 (.token "k-access.uuid-0" "k-refresh.uuid-1" "Bearer" 900
          (some "openid"))),
        some { accessToken := "k-access.uuid-0", refreshToken := "k-refresh.uuid-1",
               expiresIn := 900, tokenType := "Bearer" }⟩ := by
  decide

/-! ## C12: grant types without a branch -/

/-- With valid client credentials and a grant type that is neither `authorization_code` nor
`refresh_token`, neither branch of the handler runs: no token pair, and no response. -/
theorem oauthToken_other_grant (auth : QuantumAuth) (env : Env) (db : Db) (req : TokenRequest)
    (hclient : selectClientByCredentials db req.client_id req.client_secret ≠ [])
    (h1 : req.grant_type ≠ some "authorization_code")
    (h2 : req.grant_type ≠ some "refresh_token") :
    oauthToken auth env db req = ⟨none, none⟩ := by
  unfold oauthToken
  cases hsel : selectClientByCredentials db req.client_id req.client_secret with
  | nil => exact absurd hsel hclient
  | cons c rest => simp [h1, h2]

/-- C12 (no response for other grant types). Client `shop`, with its right secret, asks for
grant type `client_credentials`, and then for the unknown grant type `password`: in both
cases no token pair is minted, but the handler sends no response at all, where the claim
requires an UnsupportedGrantType error response. -/
theorem C12_unsupported_grant_unanswered :
    oauthToken sampleAuth (sampleEnv 1000) sampleDb (grantReq "client_credentials") =
      ⟨none, none⟩ ∧
    oauthToken sampleAuth (sampleEnv 1000) sampleDb (grantReq "password") = ⟨none, none⟩ := by
  decide

/-! ## The symbolic `jsonwebtoken` satisfies the contract -/

theorem readFrame_frame (s : String) (rest : List Char) :
    readFrame (frame s ++ rest) = some (s, rest) := by
  have hones : ∀ (n : Nat) (y : List Char),
      List.takeWhile (fun c => c == '1') (List.replicate n '1' ++ '0' :: y) =
        List.replicate n '1' := by
    intro n y
    induction n with
    | zero => simp [List.takeWhile]
    | succ n ih => simp [List.replicate_succ, List.takeWhile, ih]
  unfold readFrame frame
  simp only [List.append_assoc, List.cons_append, hones, List.length_replicate]
  have hdrop : List.drop s.length (List.replicate s.length '1' ++ '0' :: (s.data ++ rest)) =
      '0' :: (s.data ++ rest) := by
    rw [List.drop_left' (by simp)]
  rw [hdrop]
  have hlen : s.length = s.data.length := rfl
  simp only [true_and, List.length_append, hlen, Nat.le_add_right, if_true,
    List.take_left', List.drop_left']

theorem readFrames_frames (l : List String) (rest : List Char) :
    readFrames l.length (l.flatMap frame ++ rest) = some (l, rest) := by
  induction l with
  | nil => rfl
  | cons s tail ih =>
    simp only [List.length_cons, List.flatMap_cons, List.append_assoc, readFrames,
      readFrame_frame, ih]

theorem jwtDecodeModel_sign (p : Payload) (k : String) (o : SignOptions) :
    jwtDecodeModel (jwtSignModel p k o) = some (p, o, k) := by
  have h := readFrames_frames [unary p.uid, p.username, p.email, p.role, p.affiliate,
    unary p.iat, p.jti, o.expiresIn, o.algorithm, o.issuer, o.audience, k] []
  simp only [List.append_nil, List.length_cons, List.length_nil] at h
  unfold jwtDecodeModel jwtSignModel
  simp only [h]
  simp [unary, String.length]

/-- The symbolic library meets the contract assumed of `jsonwebtoken`. -/
theorem jwtEnv_contract (now : Nat) : JwtContract (jwtEnv now) where
  verify_signed := by
    intro p k o v halg hiss haud hexp
    have hexp2 : ¬ (p.iat + lifetimeSeconds o.expiresIn ≤ now / 1000) := by
      have : (jwtEnv now).now = now := rfl
      rw [this] at hexp
      omega
    simp [jwtEnv, jwtVerifyModel, jwtDecodeModel_sign, halg, hiss, haud, hexp2]
  verify_other_key := by
    intro p k k2 o v hk
    by_cases halg : o.algorithm ∈ v.algorithms
    · exact ⟨"invalid signature", by
        simp [jwtEnv, jwtVerifyModel, jwtDecodeModel_sign, halg, hk]⟩
    · exact ⟨"invalid algorithm", by
        simp [jwtEnv, jwtVerifyModel, jwtDecodeModel_sign, halg]⟩
  sign_injective := by
    intro p p2 k k2 o o2 h
    have h1 := jwtDecodeModel_sign p k o
    have h2 := jwtDecodeModel_sign p2 k2 o2
    have h3 : jwtSignModel p k o = jwtSignModel p2 k2 o2 := h
    rw [h3, h2] at h1
    simp only [Option.some.injEq, Prod.mk.injEq] at h1
    exact ⟨h1.1.symm, by rw [h1.2.1]⟩

/-! ## C13: the token pair and the kind of a token -/

/-- With equal secrets, `verifyToken` makes the same `jwt.verify` call for both kinds. -/
theorem verifyToken_kind_irrelevant (auth : QuantumAuth) (env : Env) (token : Option String)
    (h : auth.jwtSecret = auth.refreshSecret) :
    verifyToken auth env token "refresh" = verifyToken auth env token "access" := by
  unfold verifyToken
  simp [h]

/-- Under the contract, the access token of a fresh pair verifies as an access token at the
clock value of issuance and gives back the claims that were signed. -/
theorem verifyToken_access_of_contract (auth : QuantumAuth) (env : Env) (u : User)
    (hjwt : JwtContract env) :
    verifyToken auth env (some (generateTokenPair auth env u).accessToken) "access" =
      .ok { uid := u.id, username := u.username, email := u.email, role := u.role,
            affiliate := u.affiliate_code, iat := env.now / 1000, jti := env.uuidv4 0 } := by
  unfold verifyToken generateTokenPair generateToken
  simp only [if_true]
  rw [hjwt.verify_signed _ _ _ _ (by simp) rfl rfl (by simp [lifetimeSeconds])]

/-- C13 fails for an instance whose two secrets are equal: the instance is built with
`JWT_SECRET` and `JWT_REFRESH_SECRET` both set to `topsecret`; the access token it issues for
`alice` at clock value 1000 is accepted by `verifyToken(accessToken, 'refresh')`. -/
theorem C13_same_secrets_counterexample :
    sameSecretAuth.jwtSecret = sameSecretAuth.refreshSecret ∧
    verifyToken sameSecretAuth (jwtEnv 1000)
        (some (generateTokenPair sameSecretAuth (jwtEnv 1000) alice).accessToken) "access" =
      .ok { uid := 1, username := "alice", email := "alice@nexus.io", role := "user",
            affiliate := "AFF-ALICE", iat := 1, jti := "uuid-0" } ∧
    ¬ (∃ message, verifyToken sameSecretAuth (jwtEnv 1000)
        (some (generateTokenPair sameSecretAuth (jwtEnv 1000) alice).accessToken) "refresh" =
      .error message) := by
  have hok := verifyToken_access_of_contract sameSecretAuth (jwtEnv 1000) alice
    (jwtEnv_contract 1000)
  refine ⟨by decide, hok, ?_⟩
  rintro ⟨message, hm⟩
  rw [verifyToken_kind_irrelevant _ _ _ (by decide), hok] at hm
  cases hm

/-- Under the contract, the refresh token of a fresh pair verifies as a refresh token at the
clock value of issuance and gives back the claims that were signed. -/
theorem verifyToken_refresh_of_contract (auth : QuantumAuth) (env : Env) (u : User)
    (hjwt : JwtContract env) :
    verifyToken auth env (some (generateTokenPair auth env u).refreshToken) "refresh" =
      .ok { uid := u.id, username := u.username, email := u.email, role := u.role,
            affiliate := u.affiliate_code, iat := env.now / 1000, jti := env.uuidv4 1 } := by
  unfold verifyToken generateTokenPair generateToken
  have hne : ¬ (("refresh" : String) = "access") := by decide
  simp only [hne, if_false]
  rw [hjwt.verify_signed _ _ _ _ (by simp) rfl rfl (by simp [lifetimeSeconds])]

/-- Under the contract and with two different secrets, the access token of a fresh pair is
rejected as a refresh token. -/
theorem verifyToken_access_as_refresh (auth : QuantumAuth) (env : Env) (u : User)
    (hjwt : JwtContract env) (hsecrets : auth.jwtSecret ≠ auth.refreshSecret) :
    ∃ message, verifyToken auth env (some (generateTokenPair auth env u).accessToken)
      "refresh" = .error message := by
  obtain ⟨message, hm⟩ := hjwt.verify_other_key
    { uid := u.id, username := u.username, email := u.email, role := u.role,
      affiliate := u.affiliate_code, iat := env.now / 1000, jti := env.uuidv4 0 }
    auth.jwtSecret auth.refreshSecret
    { expiresIn := "15m", algorithm := "HS512", issuer := "nexus-universe",
      audience := "nexus-clients" }
    { algorithms := ["HS512"], issuer := "nexus-universe", audience := "nexus-clients" }
    hsecrets
  refine ⟨"Token invalide: " ++ message, ?_⟩
  unfold verifyToken generateTokenPair generateToken
  have hne : ¬ (("refresh" : String) = "access") := by decide
  simp only [if_true, hne, if_false]
  rw [hm]

/-- Under the contract and with two different secrets, the refresh token of a fresh pair is
rejected as an access token. -/
theorem verifyToken_refresh_as_access (auth : QuantumAuth) (env : Env) (u : User)
    (hjwt : JwtContract env) (hsecrets : auth.jwtSecret ≠ auth.refreshSecret) :
    ∃ message, verifyToken auth env (some (generateTokenPair auth env u).refreshToken)
      "access" = .error message := by
  obtain ⟨message, hm⟩ := hjwt.verify_other_key
    { uid := u.id, username := u.username, email := u.email, role := u.role,
      affiliate := u.affiliate_code, iat := env.now / 1000, jti := env.uuidv4 1 }
    auth.refreshSecret auth.jwtSecret
    { expiresIn := "7d", algorithm := "HS512", issuer := "nexus-universe",
      audience := "nexus-clients" }
    { algorithms := ["HS512"], issuer := "nexus-universe", audience := "nexus-clients" }
    (fun h => hsecrets h.symm)
  refine ⟨"Token invalide: " ++ message, ?_⟩
  unfold verifyToken generateTokenPair generateToken
  have hne : ¬ (("refresh" : String) = "access") := by decide
  simp only [if_true, hne, if_false]
  rw [hm]

/-- C13, amended. For every user, every `QuantumAuth` instance and every environment whose
`jsonwebtoken` meets `JwtContract`: `generateTokenPair` returns two distinct tokens with
`expiresIn = 900` and `tokenType = "Bearer"`; at the clock value of issuance
`verifyToken(accessToken, 'access')` and `verifyToken(refreshToken, 'refresh')` succeed with
claims whose `uid` is the id of the user; and a token is rejected under the other kind
(`verifyToken(accessToken, 'refresh')` fails, `verifyToken(refreshToken, 'access')` fails)
exactly when the `jwtSecret` and the `refreshSecret` of the instance differ. -/
theorem C13_token_pair_kinds (auth : QuantumAuth) (env : Env) (u : User)
    (hjwt : JwtContract env) :
    (generateTokenPair auth env u).accessToken ≠ (generateTokenPair auth env u).refreshToken ∧
    (generateTokenPair auth env u).expiresIn = 900 ∧
    (generateTokenPair auth env u).tokenType = "Bearer" ∧
    (∃ claims, verifyToken auth env (some (generateTokenPair auth env u).accessToken) "access" =
      .ok claims ∧ claims.uid = u.id) ∧
    (∃ claims, verifyToken auth env (some (generateTokenPair auth env u).refreshToken)
      "refresh" = .ok claims ∧ claims.uid = u.id) ∧
    ((∃ message, verifyToken auth env (some (generateTokenPair auth env u).accessToken)
      "refresh" = .error message) ↔ auth.jwtSecret ≠ auth.refreshSecret) ∧
    ((∃ message, verifyToken auth env (some (generateTokenPair auth env u).refreshToken)
      "access" = .error message) ↔ auth.jwtSecret ≠ auth.refreshSecret) := by
  refine ⟨?_, rfl, rfl, ?_, ?_, ?_, ?_⟩
  · intro heq
    have h := (hjwt.sign_injective _ _ _ _ _ _ heq).2
    simp [lifetimeSeconds] at h
  · exact ⟨_, verifyToken_access_of_contract auth env u hjwt, rfl⟩
  · exact ⟨_, verifyToken_refresh_of_contract auth env u hjwt, rfl⟩
  · constructor
    · rintro ⟨message, hm⟩ heq
      rw [verifyToken_kind_irrelevant auth env _ heq,
        verifyToken_access_of_contract auth env u hjwt] at hm
      cases hm
    · exact verifyToken_access_as_refresh auth env u hjwt
  · constructor
    · rintro ⟨message, hm⟩ heq
      rw [← verifyToken_kind_irrelevant auth env _ heq,
        verifyToken_refresh_of_contract auth env u hjwt] at hm
      cases hm
    · exact verifyToken_refresh_as_access auth env u hjwt

/-- Witness of C13, amended: the symbolic library meets the contract; the sample instance has
two different secrets, so each token of the pair issued for `alice` is accepted under its own
kind and rejected under the other. -/
theorem C13_token_pair_kinds_witness :
    (generateTokenPair sampleAuth (jwtEnv 1000) alice).accessToken ≠
        (generateTokenPair sampleAuth (jwtEnv 1000) alice).refreshToken ∧
    (∃ claims, verifyToken sampleAuth (jwtEnv 1000)
        (some (generateTokenPair sampleAuth (jwtEnv 1000) alice).accessToken) "access" =
      .ok claims ∧ claims.uid = alice.id) ∧
    (∃ claims, verifyToken sampleAuth (jwtEnv 1000)
        (some (generateTokenPair sampleAuth (jwtEnv 1000) alice).refreshToken) "refresh" =
      .ok claims ∧ claims.uid = alice.id) ∧
    (∃ message, verifyToken sampleAuth (jwtEnv 1000)
        (some (generateTokenPair sampleAuth (jwtEnv 1000) alice).accessToken) "refresh" =
      .error message) ∧
    (∃ message, verifyToken sampleAuth (jwtEnv 1000)
        (some (generateTokenPair sampleAuth (jwtEnv 1000) alice).refreshToken) "access" =
      .error message) :=
  ⟨(C13_token_pair_kinds sampleAuth (jwtEnv 1000) alice (jwtEnv_contract 1000)).1,
    (C13_token_pair_kinds sampleAuth (jwtEnv 1000) alice (jwtEnv_contract 1000)).2.2.2.1,
    (C13_token_pair_kinds sampleAuth (jwtEnv 1000) alice (jwtEnv_contract 1000)).2.2.2.2.1,
    (C13_token_pair_kinds sampleAuth (jwtEnv 1000) alice
      (jwtEnv_contract 1000)).2.2.2.2.2.1.mpr (by decide),
    (C13_token_pair_kinds sampleAuth (jwtEnv 1000) alice
      (jwtEnv_contract 1000)).2.2.2.2.2.2.mpr (by decide)⟩

/-! ## C14: validation before state changes -/

/-- The registration handler consults the validation result first: with a validation error
it answers 400 and returns the database as it was. -/
theorem register_validation_error (auth : QuantumAuth) (env : Env) (db : Db)
    (req : RegisterRequest) (h : req.errors ≠ []) :
    register auth env db req = ⟨.json 400 (.validation req.errors), db, none⟩ := by
  unfold register
  cases herr : req.errors with
  | nil => exact absurd herr h
  | cons e rest => simp

/-- C14 (validators of `POST /login` are not consulted). A login for `alice` with an empty
password fails the declared validator `body('password').notEmpty()`; the handler runs all the
same, answers 401 "Identifiants incorrects" (not a validation error) and increments the
failed-attempt counter of `alice`, where the claim requires a validation error before any
state change. -/
theorem C14_login_validators_ignored :
    loginValidators (loginReq "alice" "" none) = false ∧
    login sampleAuth (sampleEnv 1000) sampleDb (loginReq "alice" "" none) =
      ⟨.json 401 (.error "Identifiants incorrects"),
        { sampleDb with users := [{ alice with login_attempts := 1 }, bob] }, none⟩ := by
  decide

/-! ## C15: what the `catch` blocks send -/

/-- The `catch` blocks of `/register` and `/login` send a fixed message. -/
theorem catchResponse_generic (m1 m2 : String) :
    catchResponse .register m1 = catchResponse .register m2 ∧
    catchResponse .login m1 = catchResponse .login m2 := ⟨rfl, rfl⟩

/-- The `catch` blocks of the four other handlers send the message of the error. -/
theorem catchResponse_leaks (m1 m2 : String) (h : m1 ≠ m2) :
    catchResponse .oauthAuthorize m1 ≠ catchResponse .oauthAuthorize m2 ∧
    catchResponse .oauthToken m1 ≠ catchResponse .oauthToken m2 ∧
    catchResponse .getMe m1 ≠ catchResponse .getMe m2 ∧
    catchResponse .putMe m1 ≠ catchResponse .putMe m2 := by
  simp [catchResponse, h]

/-- The error path of the authorization handler in the embedding is its `catch` block. -/
theorem oauthAuthorize_verify_error (auth : QuantumAuth) (env : Env) (db : Db)
    (req : AuthorizeRequest) (client : Application) (message : String)
    (hclient : activeClient db req.client_id = some client)
    (hredirect : includes client.redirect_uris req.redirect_uri = true)
    (htoken : truthy (bearerToken req.authorization) = true)
    (hverify : verifyToken auth env (bearerToken req.authorization) "access" = .error message) :
    oauthAuthorize auth env db req = ⟨catchResponse .oauthAuthorize message, none⟩ := by
  unfold activeClient at hclient
  unfold oauthAuthorize
  cases hsel : selectActiveClient db req.client_id with
  | nil => simp [hsel] at hclient
  | cons c rest =>
    simp only [hsel, List.head?_cons, Option.some.injEq] at hclient
    subst hclient
    simp only [hredirect, htoken, hverify, Bool.not_true, Bool.false_eq_true, if_false,
      catchResponse]

set_option maxRecDepth 20000 in
/-- C15 (error text is returned). The same `GET /oauth/authorize` request, carrying the access
token issued for `alice` at clock value 1000, fails in two runs with two different errors:
at clock value 2 000 000 the token has expired, and in a process restarted with generated
keys its signature is invalid. Both are answered 500 with the text of the error, so the two
bodies differ, where the claim requires one generic body. The same holds for the text of any
other error reaching the `catch` block, such as a failed database query. -/
theorem C15_error_text_returned :
    (oauthAuthorize sampleAuth (jwtEnv 2000000) sampleDb authorizeWithToken).response =
      .json 500 (.error "Token invalide: jwt expired") ∧
    (oauthAuthorize restartedAuth (jwtEnv 1000) sampleDb authorizeWithToken).response =
      .json 500 (.error "Token invalide: invalid signature") ∧
    catchResponse .oauthAuthorize "connect ECONNREFUSED 127.0.0.1:5432" ≠
      catchResponse .oauthAuthorize "relation applications does not exist" := by
  decide

/-! ## C16: `GET /me` and `PUT /me` without a valid token -/

/-- `GET /me` answers 401 without a bearer token and with a token `verifyToken` rejects. -/
theorem getMe_unauthenticated (auth : QuantumAuth) (env : Env) (db : Db)
    (authorization : Option String)
    (h : truthy (bearerToken authorization) = false ∨
      ∃ message, verifyToken auth env (bearerToken authorization) "access" = .error message) :
    (getMe auth env db authorization).status = 401 := by
  unfold getMe
  cases ht : truthy (bearerToken authorization)
  · simp [ht, Response.status]
  · rcases h with h | ⟨message, hm⟩
    · rw [ht] at h
      cases h
    · simp [ht, hm, Response.status]

/-- `GET /me` answers 404 when the token verifies and no account has its `uid`. -/
theorem getMe_not_found (auth : QuantumAuth) (env : Env) (db : Db)
    (authorization : Option String) (decoded : Payload)
    (ht : truthy (bearerToken authorization) = true)
    (hv : verifyToken auth env (bearerToken authorization) "access" = .ok decoded)
    (hnone : ∀ u ∈ db.users, u.id ≠ decoded.uid) :
    getMe auth env db authorization = .json 404 (.error "Utilisateur non trouvé") := by
  have hsel : selectUserById db (some decoded.uid) = [] := by
    simp only [selectUserById, List.filter_eq_nil_iff, beq_iff_eq]
    exact hnone
  unfold getMe
  simp [ht, hv, hsel]

/-- `PUT /me` without a token that verifies answers 500 with the message of `verifyToken`
and returns the database as it was. -/
theorem putMe_unauthenticated (auth : QuantumAuth) (env : Env) (db : Db)
    (req : UpdateProfileRequest) (message : String)
    (h : verifyToken auth env (bearerToken req.authorization) "access" = .error message) :
    putMe auth env db req = ⟨.json 500 (.error message), db⟩ := by
  unfold putMe
  simp [h]

set_option maxRecDepth 20000 in
/-- C16 (`PUT /me` answers 500, not 401). A `PUT /me` without `Authorization` header, and one
with a bearer token that `verifyToken` rejects, leave the database as it was, as claimed, but
are answered 500 with the message of `verifyToken`, where the claim (and `GET /me`, which
answers 401 in both cases) says 401. -/
theorem C16_putMe_unauthenticated_is_500 :
    putMe sampleAuth (jwtEnv 1000) sampleDb (updateReq none) =
      ⟨.json 500 (.error "Token invalide: jwt must be provided"), sampleDb⟩ ∧
    putMe sampleAuth (jwtEnv 1000) sampleDb (updateReq (some "Bearer garbage")) =
      ⟨.json 500 (.error "Token invalide: jwt malformed"), sampleDb⟩ ∧
    getMe sampleAuth (jwtEnv 1000) sampleDb none = .json 401 (.error "Token manquant") ∧
    getMe sampleAuth (jwtEnv 1000) sampleDb (some "Bearer garbage") =
      .json 401 (.error "Token invalide: jwt malformed") := by
  decide

/-! ## C18: `verifyPassword` when the verification throws -/

/-- The result recorded with the calls is the result of `verifyPassword`. -/
theorem verifyPasswordCalls_fst (env : Env) (hash : String) (password : Option String) :
    (verifyPasswordCalls env hash password).1 = verifyPassword env hash password := by
  unfold verifyPasswordCalls verifyPassword
  cases env.argon2Verify hash password <;> rfl

/-- When `argon2.verify` throws, `verifyPassword` returns false after exactly one dummy
`argon2.hash` call, made with the options `{ timeCost: 1 }`. -/
theorem verifyPassword_of_error (env : Env) (hash : String) (password : Option String)
    (message : String) (h : env.argon2Verify hash password = .error message) :
    verifyPassword env hash password = false ∧
      verifyPasswordCalls env hash password = (false, [("dummy", dummyHashOptions)]) := by
  unfold verifyPasswordCalls verifyPassword
  simp [h]

/-- Whatever the defaults of the library are, the dummy call runs with time cost 1. -/
theorem dummyHash_timeCost (defaults : Argon2Options) :
    (effectiveOptions defaults dummyHashOptions).timeCost = some 1 := rfl

/-- C18 (the dummy hash is cheaper). For the malformed (empty) hash, `argon2.verify` throws
and `verifyPassword` returns false without throwing, as claimed, after one dummy hash
computation; but that computation is made with `{ timeCost: 1 }`, so whatever the library
defaults are its time cost is 1, while `hashPassword` uses time cost 3 (with memory cost
65536, parallelism 4 and a 32-byte output): the cost parameters are not equal, where the claim
says they are. -/
theorem C18_dummy_hash_cheaper :
    (sampleEnv 1000).argon2Verify "" (some "s3cret") =
      .error "pchstr must contain a $ as first char" ∧
    verifyPassword (sampleEnv 1000) "" (some "s3cret") = false ∧
    verifyPasswordCalls (sampleEnv 1000) "" (some "s3cret") =
      (false, [("dummy", { type := none, memoryCost := none, timeCost := some 1,
                           parallelism := none, hashLength := none, saltLength := none })]) ∧
    hashPasswordOptions =
      { type := some "argon2id", memoryCost := some 65536, timeCost := some 3,
        parallelism := some 4, hashLength := some 32, saltLength := some 16 } ∧
    (∀ defaults : Argon2Options,
      (effectiveOptions defaults dummyHashOptions).timeCost = some 1 ∧
      (effectiveOptions defaults dummyHashOptions).timeCost ≠
        (effectiveOptions defaults hashPasswordOptions).timeCost) := by
  refine ⟨rfl, by decide, by decide, rfl, fun defaults => ⟨rfl, ?_⟩⟩
  simp [effectiveOptions, dummyHashOptions, hashPasswordOptions]

/-! ## C19: the counter after a lock has expired -/

/-- When the answer is not 200, the users table is either unchanged or has gone through the
failed-attempt update. -/
theorem login_users_of_not_success (auth : QuantumAuth) (env : Env) (db : Db)
    (req : LoginRequest) (h : (login auth env db req).response.status ≠ 200) :
    (login auth env db req).db.users = db.users ∨
    ∃ u, account db req.identifier = some u ∧
      (login auth env db req).db.users = db.users.map (fun r =>
        if r.id = u.id then
          { r with login_attempts := r.login_attempts + 1,
                   locked_until := if u.login_attempts + 1 ≥ 5 then some (env.now + 1800000)
                                   else r.locked_until }
        else r) := by
  cases hacc : account db req.identifier with
  | none =>
    rw [login_no_account auth env db req hacc]
    exact Or.inl rfl
  | some u =>
    by_cases hnl : ∀ t, u.locked_until = some t → t ≤ env.now
    · cases hp : verifyPassword env u.password_hash req.password
      · exact Or.inr ⟨u, rfl, (login_wrong_password auth env db req u hacc hnl hp).2.2⟩
      · rw [login_not_locked auth env db req u hacc hnl] at h ⊢
        left
        revert h
        unfold loginUnlocked
        cases hs : truthy u.two_factor_secret
        · simp [hp, loginSuccess_response, Response.status]
        · cases hc : req.twoFactorCode with
          | none => simp [hp, truthy]
          | some c =>
            by_cases hce : c = ""
            · simp [hp, truthy, hce]
            · cases hv : verifyTwoFactor env u c <;>
                simp [hp, truthy, hce, hv, loginSuccess_response, Response.status]
    · push_neg at hnl
      obtain ⟨t, hl, ht⟩ := hnl
      rw [login_locked auth env db req u t hacc hl ht]
      exact Or.inl rfl

/-- C19. For an account whose `locked_until` is set but not later than now and whose
`login_attempts` is at least 4, one wrong-password login is answered 423, generates no token
pair, increments the counter and sets `locked_until` to now plus 30 minutes: the expiry of a
lock does not reset the counter. And a login that is not answered 200 lowers the counter of
no row: only a successful login brings `login_attempts` back below the threshold. -/
theorem C19_counter_survives_lock_expiry (auth : QuantumAuth) :
    (∀ (env : Env) (db : Db) (req : LoginRequest) (u : User) (t : Nat),
      account db req.identifier = some u → u.locked_until = some t → t ≤ env.now →
      4 ≤ u.login_attempts → verifyPassword env u.password_hash req.password = false →
      (login auth env db req).response.status = 423 ∧
      (login auth env db req).tokens = none ∧
      account (login auth env db req).db req.identifier =
        some { u with login_attempts := u.login_attempts + 1,
                      locked_until := some (env.now + 1800000) }) ∧
    (∀ (env : Env) (db : Db) (req : LoginRequest),
      (login auth env db req).response.status ≠ 200 →
      List.Forall₂ (fun r r2 => r2.id = r.id ∧ r.login_attempts ≤ r2.login_attempts)
        db.users (login auth env db req).db.users) := by
  refine ⟨?_, ?_⟩
  · intro env db req u t hacc hl ht h4 hp
    have hnl : ∀ t2, u.locked_until = some t2 → t2 ≤ env.now := by
      intro t2 h2
      rw [hl] at h2
      cases h2
      exact ht
    have h5 : u.login_attempts + 1 ≥ 5 := by omega
    have h1 := login_wrong_password auth env db req u hacc hnl hp
    have h2 := account_after_wrong_password auth env db req u hacc hnl hp
    simp only [h5, if_true] at h1 h2
    exact ⟨h1.1, h1.2.1, h2⟩
  · intro env db req hst
    rcases login_users_of_not_success auth env db req hst with h | ⟨u, _, h⟩
    · rw [h]
      exact List.forall₂_same.mpr (fun r _ => ⟨rfl, le_refl _⟩)
    · rw [h, List.forall₂_map_right_iff]
      apply List.forall₂_same.mpr
      intro r _
      by_cases hr : r.id = u.id <;> simp [hr]

/-- Witness of C19: after the five wrong passwords and once the lock has expired (clock value
2 000 000), one more wrong password for `alice` is answered 423 and locks the account again. -/
theorem C19_counter_survives_lock_expiry_witness :
    (login sampleAuth (sampleEnv 2000000) (loginRun sampleAuth sampleDb fiveWrong)
        (loginReq "alice" "wrong" none)).response.status = 423 ∧
    account (login sampleAuth (sampleEnv 2000000) (loginRun sampleAuth sampleDb fiveWrong)
        (loginReq "alice" "wrong" none)).db (some "alice") =
      some { alice with login_attempts := 6, locked_until := some 3800000 } := by
  have h := (C19_counter_survives_lock_expiry sampleAuth).1 (sampleEnv 2000000)
    (loginRun sampleAuth sampleDb fiveWrong) (loginReq "alice" "wrong" none)
    { alice with login_attempts := 5, locked_until := some 1805000 } 1805000
    (by decide) rfl (by decide) (by decide) (by decide)
  exact ⟨h.1, h.2.2⟩

/-! ## C17: registration with an invitation code -/

/-- When ids are unique, the rows with the id of a row of the table are that row only. -/
theorem credit_by_id_eq (users : List User) (R : User) (hR : R ∈ users)
    (hnodup : (users.map User.id).Nodup) :
    users.map (fun u =>
        if u.id = R.id then { u with credit_balance := u.credit_balance + 10 } else u) =
      users.map (fun u =>
        if u = R then { u with credit_balance := u.credit_balance + 10 } else u) := by
  apply List.map_congr_left
  intro u hu
  by_cases hid : u.id = R.id
  · have : u = R := List.inj_on_of_nodup_map hnodup hu hR hid
    simp [this]
  · have : u ≠ R := fun h => hid (by rw [h])
    simp [hid, this]

/-- What a valid, non-duplicate registration does to the database, apart from the invitation
block: one row is appended to `users`, one to `sessions`, one to `audit_logs`. -/
theorem register_valid (auth : QuantumAuth) (env : Env) (db : Db) (req : RegisterRequest)
    (username email password : String)
    (hvalid : req.errors = [])
    (hnew : selectUsersByEmailOrUsername db req.email req.username = [])
    (hu : req.username = some username) (he : req.email = some email)
    (hp : req.password = some password) :
    register auth env db req = registerAccount auth env db req username email password := by
  rw [hu, he] at hnew
  unfold register
  simp [hvalid, hnew, hu, he, hp]

/-- The users table and the affiliate network after `registerAccount` are those left by the
invitation block. -/
theorem registerAccount_db (auth : QuantumAuth) (env : Env) (db : Db) (req : RegisterRequest)
    (username email password : String) :
    (registerAccount auth env db req username email password).db.users =
      (handleInvite { db with users := db.users ++
        [newUserRow env req username email (hashPassword env password)] }
        req.inviteCode env.newUserId).users ∧
    (registerAccount auth env db req username email password).db.affiliate_network =
      (handleInvite { db with users := db.users ++
        [newUserRow env req username email (hashPassword env password)] }
        req.inviteCode env.newUserId).affiliate_network := ⟨rfl, rfl⟩

set_option maxRecDepth 20000 in
/-- C17 fails when `inviteCode` is the affiliate code generated for the new account itself.
No existing account of the sample database has the code `AFF-NEW`, which the database
generates for `carol`; she registers with `inviteCode = "AFF-NEW"`. The referrer query runs
after the new row has been inserted and finds that row: a referral row `(3, 3, 1, 0.10)` is
created and the new account is credited 10, where the claim says that no referral record is
created and no balance changes. -/
theorem C17_self_referral_counterexample :
    (∀ u ∈ sampleDb.users, u.affiliate_code ≠ "AFF-NEW") ∧
    (register sampleAuth (sampleEnv 1000) sampleDb
        (registerReq (some "AFF-NEW"))).response.status = 201 ∧
    (register sampleAuth (sampleEnv 1000) sampleDb
        (registerReq (some "AFF-NEW"))).db.affiliate_network =
      [{ user_id := 3, referrer_id := 3, level := 1,
         commission_rate := { mantissa := 10, scale := 2 } }] ∧
    (register sampleAuth (sampleEnv 1000) sampleDb (registerReq (some "AFF-NEW"))).db.users =
      [alice, bob, { carol with credit_balance := 10 }] := by
  decide

/-- C17, amended. Take a valid registration (no validation error, `username`, `email` and
`password` present) that duplicates no account, in a table whose ids are pairwise distinct and
differ from the id given to the new row. The answer is 201 and carries the affiliate code of
the new account. If `inviteCode` is a non-empty string and `R` is the first existing account
having it as affiliate code, then exactly one row `(new id, R.id, level 1, rate 0.10)` is
appended to `affiliate_network`, the balance of `R` grows by 10 and every other existing row
is unchanged. If `inviteCode` is the affiliate code of no existing account and is not the
code generated for the new account either, `affiliate_network` is unchanged and so is every
existing row of `users`. -/
theorem C17_referral_on_registration (auth : QuantumAuth) (env : Env) (db : Db)
    (req : RegisterRequest) (username email password : String)
    (hvalid : req.errors = [])
    (hnew : selectUsersByEmailOrUsername db req.email req.username = [])
    (hu : req.username = some username) (he : req.email = some email)
    (hp : req.password = some password)
    (hids : (db.users.map User.id ++ [env.newUserId]).Nodup) :
    (∃ user tokens link, (register auth env db req).response =
        .json 201 (.registered "Compte créé avec succès" user tokens env.generateAffiliateCode
          link) ∧
      user.affiliatecode = env.generateAffiliateCode ∧
      (newUserRow env req username email (hashPassword env password)).affiliate_code =
        env.generateAffiliateCode) ∧
    (∀ (code : String) (R : User) (rest : List User),
      req.inviteCode = some code → code ≠ "" →
      selectUsersByAffiliateCode db code = R :: rest →
      (register auth env db req).db.affiliate_network = db.affiliate_network ++
        [{ user_id := env.newUserId, referrer_id := R.id, level := 1,
           commission_rate := { mantissa := 10, scale := 2 } }] ∧
      (register auth env db req).db.users =
        db.users.map (fun u =>
          if u = R then { u with credit_balance := u.credit_balance + 10 } else u) ++
        [newUserRow env req username email (hashPassword env password)]) ∧
    ((∀ u ∈ db.users, some u.affiliate_code ≠ req.inviteCode) →
      some env.generateAffiliateCode ≠ req.inviteCode →
      (register auth env db req).db.affiliate_network = db.affiliate_network ∧
      (register auth env db req).db.users =
        db.users ++ [newUserRow env req username email (hashPassword env password)]) := by
  rw [register_valid auth env db req username email password hvalid hnew hu he hp]
  have hdb := registerAccount_db auth env db req username email password
  rw [hdb.1, hdb.2]
  have hnodup : (db.users.map User.id).Nodup := (List.nodup_append.mp hids).1
  have hfresh : ∀ u ∈ db.users, u.id ≠ env.newUserId := by
    intro u hu2 hid
    have hdisj := (List.nodup_append.mp hids).2.2
    exact hdisj (List.mem_map_of_mem User.id hu2) (by simp [hid])
  refine ⟨⟨_, _, _, rfl, rfl, rfl⟩, ?_, ?_⟩
  · intro code R rest hcode hne hsel
    have hR : R ∈ db.users := by
      have : R ∈ selectUsersByAffiliateCode db code := by rw [hsel]; exact List.mem_cons_self _ _
      exact List.mem_of_mem_filter this
    have htr : truthy (some code) = true := by simp [truthy, hne]
    have hsel2 : selectUsersByAffiliateCode
        { db with users := db.users ++
          [newUserRow env req username email (hashPassword env password)] } code =
        R :: (rest ++ selectUsersByAffiliateCode
          { db with users := [newUserRow env req username email (hashPassword env password)] }
          code) := by
      unfold selectUsersByAffiliateCode at hsel ⊢
      simp only [List.filter_append, hsel, List.cons_append]
    unfold handleInvite
    simp only [hcode, htr, if_true, Option.getD_some, hsel2]
    refine ⟨rfl, ?_⟩
    simp only [creditReferrer, insertAffiliateLink, List.map_append, List.map_cons, List.map_nil]
    have hnewid : (newUserRow env req username email (hashPassword env password)).id ≠ R.id := by
      intro h
      exact hfresh R hR h.symm
    rw [if_neg hnewid, credit_by_id_eq db.users R hR hnodup]
  · intro hnone hgen
    unfold handleInvite
    cases hinv : req.inviteCode with
    | none => simp [truthy]
    | some code =>
      have hsel : selectUsersByAffiliateCode
          { db with users := db.users ++
            [newUserRow env req username email (hashPassword env password)] } code = [] := by
        unfold selectUsersByAffiliateCode
        simp only [List.filter_eq_nil_iff, List.mem_append, List.mem_singleton, beq_iff_eq]
        rintro u (hu2 | rfl) heq
        · exact hnone u hu2 (by rw [hinv, heq])
        · exact hgen (by rw [hinv]; exact congrArg some heq)
      simp only [Option.getD_some, hsel]
      split <;> exact ⟨rfl, rfl⟩

/-- Witness of C17, amended: `carol` registers with the affiliate code of `alice`: one
referral row `(3, 1, 1, 0.10)` is created, `alice` gets 10 and `bob` is unchanged; with a code
that no account has, no referral row is created and no existing row changes. -/
theorem C17_referral_on_registration_witness :
    (register sampleAuth (sampleEnv 1000) sampleDb
        (registerReq (some "AFF-ALICE"))).db.affiliate_network =
      [{ user_id := 3, referrer_id := 1, level := 1,
         commission_rate := { mantissa := 10, scale := 2 } }] ∧
    (register sampleAuth (sampleEnv 1000) sampleDb (registerReq (some "AFF-ALICE"))).db.users =
      [{ alice with credit_balance := 10 }, bob, carol] ∧
    (register sampleAuth (sampleEnv 1000) sampleDb
        (registerReq (some "NOPE"))).db.affiliate_network = [] ∧
    (register sampleAuth (sampleEnv 1000) sampleDb (registerReq (some "NOPE"))).db.users =
      [alice, bob, carol] := by
  have h := (C17_referral_on_registration sampleAuth (sampleEnv 1000) sampleDb
    (registerReq (some "AFF-ALICE")) "carol" "carol@nexus.io" "Passw0rd!" rfl (by decide) rfl rfl
    rfl (by decide)).2.1 "AFF-ALICE" alice [] rfl (by decide) (by decide)
  have h2 := (C17_referral_on_registration sampleAuth (sampleEnv 1000) sampleDb
    (registerReq (some "NOPE")) "carol" "carol@nexus.io" "Passw0rd!" rfl (by decide) rfl rfl
    rfl (by decide)).2.2 (by decide) (by decide)
  exact ⟨h.1, h.2.trans (by decide), h2.1, h2.2.trans (by decide)⟩

end Nexus
